import Mathlib

/-!
Verification of the DrapeStudio generation pipeline against its
natural-language specification.

The Python sources are shallowly embedded as executable Lean definitions:

* `app/services/gemini.py`  — generation-API client (`callOpenrouterClassify`,
  `runVariation`, `generateGarmentImages`); the network is abstracted as an
  oracle giving, for each (variation, attempt) pair, either an HTTP response
  or a raised network exception; wall-clock time and base64 byte decoding are
  abstracted (the decoded payload stands for the decoded bytes).
* `app/services/prompt.py`  — prompt assembly (`assemblePrompt`).
* `app/services/storage.py` — local storage backend (`localSave`, `localLoad`).
* `app/api/generations.py`  — `create_generation` idempotency behaviour
  (`createGeneration`).
* `app/worker/jobs.py`      — the RQ job `generate_images` (`generateImages`),
  with the database session modelled as commit snapshots of an explicit
  `Db` value.

Raw byte strings are modelled as Lean `String`s.
-/

/-- Raw bytes (image payloads, file contents) modelled as strings. -/
abbrev Bytes := String

/-! ## Generation-API client (`app/services/gemini.py`) -/

/-- `GeminiError(message, retryable)` from `gemini.py`. -/
structure GeminiError where
  message : String
  retryable : Bool
deriving DecidableEq, Repr

/-- `GeminiResult` from `gemini.py`.  `duration_ms` is wall-clock time in the
source; time is not modelled, so the client always reports `0`. -/
structure GeminiResult where
  images : List Bytes
  input_tokens : Option Nat
  output_tokens : Option Nat
  model_name : String
  duration_ms : Nat
deriving DecidableEq, Repr

/-- The `VARIATION_VIEWS` list of camera-angle instructions. -/
def VARIATION_VIEWS : List String :=
  [ "CAMERA ANGLE FOR THIS IMAGE: Front view — model facing directly toward the camera. Full face clearly visible, eyes looking at camera.",
    "CAMERA ANGLE FOR THIS IMAGE: Three-quarter side view — model turned 45 degrees to the side. Head angled back toward the camera so the face is clearly visible.",
    "CAMERA ANGLE FOR THIS IMAGE: Back view — model facing away from camera to show the back of the garment. Model's head turned over the shoulder looking back toward the camera so the face is clearly visible." ]

/-- Token usage dict of the OpenRouter response (`data["usage"]`);
`none` models a missing key. -/
structure Usage where
  prompt_tokens : Option Nat
  completion_tokens : Option Nat
deriving DecidableEq, Repr

/-- One entry of `message["images"]`; `url` is
`entry.get("image_url", {}).get("url", "")`. -/
structure ApiImage where
  url : String
deriving DecidableEq, Repr

/-- `choices[0]["message"]`. -/
structure ApiMessage where
  images : List ApiImage
  content : String
deriving DecidableEq, Repr

/-- One element of `data["choices"]`. -/
structure ApiChoice where
  message : ApiMessage
deriving DecidableEq, Repr

/-- The parsed JSON body of an OpenRouter response.  `error` is
`data.get("error")` (`none` when the key is absent). -/
structure ApiBody where
  error : Option String
  choices : List ApiChoice
  usage : Usage
deriving DecidableEq, Repr

/-- An HTTP response: status code, parsed JSON body and raw text. -/
structure HttpResponse where
  status_code : Nat
  body : ApiBody
  text : String
deriving DecidableEq, Repr

/-- `resp.text[:500]`. -/
def take500 (s : String) : String := ⟨s.data.take 500⟩

/-- Character-list version of `_decode_data_url`'s regex
`data:image/[^;]+;base64,(.+)` (anchored match): after the literal
`data:image/` there must be at least one non-semicolon character, then the
literal `;base64,`, then a nonempty payload.  Returns the captured payload. -/
def parseDataUrl (s : List Char) : Option (List Char) :=
  let pre := "data:image/".data
  if pre.isPrefixOf s then
    let rest := s.drop pre.length
    let mime := rest.takeWhile (fun c => c ≠ ';')
    let after := rest.dropWhile (fun c => c ≠ ';')
    if mime ≠ [] ∧ ";base64,".data.isPrefixOf after then
      let payload := after.drop ";base64,".data.length
      if payload ≠ [] then some payload else none
    else none
  else none

/-- `_decode_data_url`: a data URL that fails the pattern raises a
(non-retryable) `GeminiError`; base64 decoding of the payload is abstracted,
the payload itself standing for the decoded bytes. -/
def decodeDataUrl (s : String) : Except GeminiError Bytes :=
  match parseDataUrl s.data with
  | some payload => Except.ok ⟨payload⟩
  | none => Except.error
      ⟨"Invalid image data URL format: " ++ ⟨s.data.take 80⟩ ++ "...", false⟩

/-- The response-handling part of `_call_openrouter` (everything after the
POST): HTTP-status classification, API-level error check, choice/image
extraction and data-URL decoding. -/
def callOpenrouterClassify (resp : HttpResponse) : Except GeminiError (Bytes × Usage) :=
  if resp.status_code ≠ 200 then
    Except.error
      ⟨"OpenRouter API error (HTTP " ++ toString resp.status_code ++ "): " ++ take500 resp.text,
       resp.status_code = 429 ∨ resp.status_code = 500 ∨ resp.status_code = 502 ∨
         resp.status_code = 503 ∨ resp.status_code = 504⟩
  else
    match resp.body.error with
    | some e => Except.error ⟨"OpenRouter API error: " ++ e, false⟩
    | none =>
      match resp.body.choices with
      | [] => Except.error ⟨"OpenRouter returned no choices in response.", false⟩
      | choice :: _ =>
        match choice.message.images with
        | [] => Except.error ⟨"OpenRouter returned no images in the response.", false⟩
        | img :: _ =>
          if img.url = "" then
            Except.error ⟨"Image data URL is empty in response.", false⟩
          else
            (decodeDataUrl img.url).map (fun b => (b, resp.body.usage))

/-- Outcome of one network POST: either an HTTP response, or a raised
exception that is not a `GeminiError` (connection error, timeout, ...). -/
inductive NetOutcome
  | response (r : HttpResponse)
  | netError (msg : String)

/-- The network oracle: the outcome of the POST made for a given
(variation index, attempt index) pair. -/
abbrev NetOracle := Nat → Nat → NetOutcome

/-- What one attempt inside the retry loop of `generate_garment_images`
raises: a `GeminiError` (first `except` arm) or any other exception
(second `except` arm). -/
inductive AttemptErr
  | gem (e : GeminiError)
  | exc (msg : String)
deriving DecidableEq, Repr

/-- One full `_call_openrouter` attempt, as seen by the retry loop. -/
def attemptCall (oracle : NetOracle) (variation attempt : Nat) :
    Except AttemptErr (Bytes × Usage) :=
  match oracle variation attempt with
  | NetOutcome.netError m => Except.error (AttemptErr.exc m)
  | NetOutcome.response r =>
    match callOpenrouterClassify r with
    | Except.ok v => Except.ok v
    | Except.error e => Except.error (AttemptErr.gem e)

/-- The `for`-`else` exhaustion error of the retry loop. -/
def geminiExhaustMsg (variation maxRetries : Nat) (lastError : String) : GeminiError :=
  ⟨"OpenRouter failed for variation " ++ toString (variation + 1) ++ " after " ++
     toString (maxRetries + 1) ++ " attempts: " ++ lastError, false⟩

/-- The retry loop body for one variation (`for attempt in range(max_retries + 1)`),
starting at `attempt` with `fuel` attempts remaining.  Returns the result
together with the list of backoff sleeps performed (in seconds).  A retryable
`GeminiError` sleeps `15 * 2 ^ attempt`; any other exception sleeps
`2 ^ (attempt + 1)`; a non-retryable `GeminiError` re-raises at once. -/
def runVarAux (oracle : NetOracle) (maxRetries variation : Nat) :
    Nat → Nat → String → Except GeminiError (Bytes × Usage) × List Nat
  | _, 0, lastError =>
    (Except.error (geminiExhaustMsg variation maxRetries lastError), [])
  | attempt, fuel + 1, _ =>
    match attemptCall oracle variation attempt with
    | Except.ok v => (Except.ok v, [])
    | Except.error (AttemptErr.gem e) =>
      if e.retryable then
        if attempt < maxRetries then
          let rest := runVarAux oracle maxRetries variation (attempt + 1) fuel e.message
          (rest.1, 15 * 2 ^ attempt :: rest.2)
        else (Except.error (geminiExhaustMsg variation maxRetries e.message), [])
      else (Except.error e, [])
    | Except.error (AttemptErr.exc m) =>
      if attempt < maxRetries then
        let rest := runVarAux oracle maxRetries variation (attempt + 1) fuel m
        (rest.1, 2 ^ (attempt + 1) :: rest.2)
      else (Except.error (geminiExhaustMsg variation maxRetries m), [])

/-- All attempts for one variation index. -/
def runVariation (oracle : NetOracle) (maxRetries variation : Nat) :
    Except GeminiError (Bytes × Usage) × List Nat :=
  runVarAux oracle maxRetries variation 0 (maxRetries + 1) "None"

/-- The per-variation loop of `generate_garment_images`, accumulating images
and token counts, threading the list of sleeps. -/
def genVarsAux (oracle : NetOracle) (maxRetries : Nat) :
    List Nat → List Bytes → Nat → Nat →
    Except GeminiError (List Bytes × Nat × Nat) × List Nat
  | [], imgs, tin, tout => (Except.ok (imgs, tin, tout), [])
  | v :: vs, imgs, tin, tout =>
    let r := runVariation oracle maxRetries v
    match r.1 with
    | Except.error e => (Except.error e, r.2)
    | Except.ok (img, usage) =>
      let rest := genVarsAux oracle maxRetries vs (imgs ++ [img])
        (tin + usage.prompt_tokens.getD 0) (tout + usage.completion_tokens.getD 0)
      (rest.1, r.2 ++ rest.2)

/-- `generate_garment_images`: checks the API key, then generates the three
variations (`for variation_idx in range(3)`).  `apiKey` is
`settings.OPENROUTER_API_KEY` (empty string models a missing key);
`modelName` is the already-resolved model slug.  Also returns the backoff
sleeps performed. -/
def generateGarmentImages (oracle : NetOracle) (apiKey modelName : String)
    (maxRetries : Nat) : Except GeminiError GeminiResult × List Nat :=
  if apiKey = "" then
    (Except.error ⟨"OPENROUTER_API_KEY is not configured.", false⟩, [])
  else
    match genVarsAux oracle maxRetries [0, 1, 2] [] 0 0 with
    | (Except.error e, sleeps) => (Except.error e, sleeps)
    | (Except.ok (imgs, tin, tout), sleeps) =>
      (Except.ok
        { images := imgs,
          input_tokens := if tin ≠ 0 then some tin else none,
          output_tokens := if tout ≠ 0 then some tout else none,
          model_name := modelName,
          duration_ms := 0 },
       sleeps)

/-! ## Prompt assembly (`app/services/prompt.py`) -/

/-- A loaded prompt template (the YAML dict): preset sections are
association lists, missing sections behave as empty dicts. -/
structure Template where
  environments : List (String × String)
  poses : List (String × String)
  framing : List (String × String)
  lighting : List (String × String)
  product_types : List (String × String)
  ethnicities : List (String × String)
  hair_styles : List (String × String)
  hair_colors : List (String × String)
  quality : String
  output : String
  negative : String
deriving DecidableEq, Repr

/-- `section.get(key, default)` on a template section. -/
def tdGet (d : List (String × String)) (k dflt : String) : String :=
  (List.lookup k d).getD dflt

/-- The measurements dict (values are numbers; `none` models a missing or
`None` entry). -/
structure Meas where
  height_cm : Option Int
  weight_kg : Option Int
  chest_bust_cm : Option Int
  waist_cm : Option Int
  hips_cm : Option Int
  inseam_cm : Option Int
  shoe_size_eu : Option Int
deriving DecidableEq, Repr

/-- Python truthiness of `measurements.get(k)`: present and nonzero. -/
def truthyNum : Option Int → Bool
  | some v => v ≠ 0
  | none => false

/-- `_build_measurements_text`. -/
def buildMeasurementsText (m : Meas) : String :=
  let parts : List String :=
    (if truthyNum m.height_cm then [toString (m.height_cm.getD 0) ++ " cm tall"] else []) ++
    (if truthyNum m.weight_kg then [toString (m.weight_kg.getD 0) ++ " kg"] else []) ++
    (if truthyNum m.chest_bust_cm then ["chest/bust " ++ toString (m.chest_bust_cm.getD 0) ++ " cm"] else []) ++
    (if truthyNum m.waist_cm then ["waist " ++ toString (m.waist_cm.getD 0) ++ " cm"] else []) ++
    (if truthyNum m.hips_cm then ["hips " ++ toString (m.hips_cm.getD 0) ++ " cm"] else []) ++
    (if truthyNum m.inseam_cm then ["inseam " ++ toString (m.inseam_cm.getD 0) ++ " cm"] else []) ++
    (if truthyNum m.shoe_size_eu then ["shoe size EU " ++ toString (m.shoe_size_eu.getD 0)] else [])
  String.intercalate ", " parts

/-- The `model_params` JSON dict as read by `assemble_prompt`
(`.get` with a default; `none` models a missing key). -/
structure MParams where
  product_type : Option String
  model_photo_url : Option String
  measurements : Option Meas
  age_range : Option String
  gender_presentation : Option String
  skin_tone : Option String
  body_type : Option String
  ethnicity : Option String
  hair_style : Option String
  hair_color : Option String
  additional_description : Option String
deriving DecidableEq, Repr

/-- The `scene_params` JSON dict as read by `assemble_prompt`. -/
structure SParams where
  environment : Option String
  pose_preset : Option String
  framing : Option String
deriving DecidableEq, Repr

/-- The default used for an unmapped product type. -/
def genericGarmentText : String := "wearing the garment shown in the reference image(s)"

/-- An ASCII whitespace character (the cases Python's `str.strip()` removes
that occur in templates and user text). -/
def isSpaceChar (c : Char) : Bool := c = ' ' || c = '\t' || c = '\n' || c = '\r'

/-- Python's `str.strip()`: drop whitespace from both ends. -/
def pyStrip (s : String) : String :=
  ⟨((s.data.dropWhile isSpaceChar).reverse.dropWhile isSpaceChar).reverse⟩

/-- `assemble_prompt` with the template already loaded (the function is
total: template loading, whose failure is fatal, is a separate step and is
part of the worker's environment). -/
def assemblePrompt (template : Template) (mp : MParams) (sp : SParams) : String :=
  let environment := sp.environment.getD "studio_white"
  let pose_preset := sp.pose_preset.getD "front_standing"
  let framing := sp.framing.getD "full_body"
  let env_desc := tdGet template.environments environment environment
  let pose_desc := tdGet template.poses pose_preset pose_preset
  let framing_desc := tdGet template.framing framing framing
  let lighting_desc := tdGet template.lighting environment ""
  let product_type := mp.product_type.getD "clothing"
  let pt_desc := tdGet template.product_types product_type genericGarmentText
  let measure_text := match mp.measurements with
    | some m => buildMeasurementsText m
    | none => ""
  let quality := pyStrip template.quality
  let output_instructions := pyStrip template.output
  let negative := pyStrip template.negative
  let photo_truthy : Bool := match mp.model_photo_url with
    | some u => u != ""
    | none => false
  let (intro, model_line) :=
    if photo_truthy then
      ("Generate a photorealistic catalogue image of the PERSON shown in the first reference image (model reference photo), " ++ pt_desc ++ ".",
       "MODEL: Use the exact appearance, face, skin tone, and body proportions of the person in the model reference photo. Do not alter or idealise their appearance." ++
         (if measure_text ≠ "" then " Reference measurements: " ++ measure_text ++ "." else ""))
    else
      let age_range := mp.age_range.getD "25-34"
      let gender := mp.gender_presentation.getD "feminine"
      let skin_tone := mp.skin_tone.getD "4"
      let body_type := mp.body_type.getD "average"
      let ethnicity := mp.ethnicity.getD ""
      let hair_style := mp.hair_style.getD ""
      let hair_color := mp.hair_color.getD ""
      let additional_description := pyStrip (mp.additional_description.getD "")
      let ethnicity_desc := if ethnicity ≠ "" then tdGet template.ethnicities ethnicity "" else ""
      let hair_style_desc := if hair_style ≠ "" then tdGet template.hair_styles hair_style "" else ""
      let hair_color_desc := if hair_color ≠ "" then tdGet template.hair_colors hair_color "" else ""
      let model_desc :=
        "A " ++ gender ++ " model, age " ++ age_range ++ ", Fitzpatrick skin tone " ++
          skin_tone ++ ", " ++ body_type ++ " body type" ++
        (if ethnicity_desc ≠ "" then ", " ++ ethnicity_desc else "") ++
        (if hair_color_desc ≠ "" ∧ hair_style_desc ≠ "" then ", " ++ hair_color_desc ++ ", " ++ hair_style_desc
         else if hair_style_desc ≠ "" then ", " ++ hair_style_desc
         else if hair_color_desc ≠ "" then ", " ++ hair_color_desc
         else "") ++
        (if additional_description ≠ "" then ". Additional details: " ++ additional_description else "") ++
        (if measure_text ≠ "" then ". Measurements: " ++ measure_text else "")
      ("Generate a photorealistic catalogue image of a model " ++ pt_desc ++ ".",
       "MODEL: " ++ model_desc)
  intro ++ "\n\n" ++ model_line ++ "\n\nPOSE: " ++ pose_desc ++ "\n\nFRAMING: " ++
    framing_desc ++ "\n\nENVIRONMENT: " ++ env_desc ++ "\n\nLIGHTING: " ++ lighting_desc ++
    "\n\nQUALITY REQUIREMENTS:\n" ++ quality ++ "\n\nOUTPUT REQUIREMENTS:\n" ++
    output_instructions ++ "\n\nNEGATIVE (avoid these):\n" ++ negative

/-- Substring test on character lists (used to state "appears verbatim"). -/
def hasSub (hay needle : List Char) : Bool :=
  match hay with
  | [] => needle.isEmpty
  | _ :: t => needle.isPrefixOf hay || hasSub t needle

/-! ## Local storage backend (`app/services/storage.py`) -/

/-- The local filesystem under the storage root, as a partial map from
relative paths to file contents. -/
abbrev FileStore := String → Option Bytes

/-- Python's `path.replace("local://", "")`: removes every occurrence,
scanning left to right.  Fuel is the length of the string (each step
consumes at least one character). -/
def stripLocalAux : Nat → List Char → List Char
  | 0, rest => rest
  | _ + 1, [] => []
  | fuel + 1, c :: rest =>
    if "local://".data.isPrefixOf (c :: rest) then stripLocalAux fuel (rest.drop 7)
    else c :: stripLocalAux fuel rest

/-- `path.replace("local://", "")` on strings. -/
def pyRemoveLocal (s : String) : String := ⟨stripLocalAux s.data.length s.data⟩

/-- `LocalStorageBackend.save`: writes the bytes at the path and returns the
`local://`-prefixed reference. -/
def localSave (store : FileStore) (data : Bytes) (path : String) : FileStore × String :=
  (fun q => if q = path then some data else store q, "local://" ++ path)

/-- `LocalStorageBackend.load`: strips `local://` occurrences and reads;
`none` models `FileNotFoundError`. -/
def localLoad (store : FileStore) (path : String) : Option Bytes :=
  store (pyRemoveLocal path)

/-! ## `POST /v1/generations` (`app/api/generations.py`, `create_generation`) -/

/-- `ModelMeasurements` (pydantic); numeric values modelled as integers. -/
structure MeasSchema where
  height_cm : Option Int
  weight_kg : Option Int
  chest_bust_cm : Option Int
  waist_cm : Option Int
  hips_cm : Option Int
  inseam_cm : Option Int
  shoe_size_eu : Option Int
deriving DecidableEq, Repr

/-- `ModelParams` (pydantic). -/
structure ModelParamsSchema where
  age_range : String
  gender_presentation : String
  ethnicity : String
  skin_tone : String
  body_mode : String
  body_type : String
  hair_style : String
  hair_color : String
  additional_description : String
  model_photo_url : Option String
  measurements : Option MeasSchema
deriving DecidableEq, Repr

/-- `SceneParams` (pydantic). -/
structure SceneSchema where
  environment : String
  pose_preset : String
  framing : String
deriving DecidableEq, Repr

/-- `OutputParams` (pydantic). -/
structure OutputSchema where
  count : Nat
  resolution : String
deriving DecidableEq, Repr

/-- `CreateGenerationRequest` (pydantic). -/
structure CreateBody where
  idempotency_key : Option String
  product_type : String
  garment_images : List String
  model_params : ModelParamsSchema
  scene : SceneSchema
  output : OutputSchema
deriving DecidableEq, Repr

/-- A stored `generation_request` row as `create_generation` builds and
compares it.  `mp_product_type` is the `product_type` entry that the
endpoint embeds into the stored `model_params` dict. -/
structure ApiGenRow where
  id : String
  session_id : String
  status : String
  garment_image_urls : List String
  model_params : ModelParamsSchema
  mp_product_type : String
  scene_params : SceneSchema
  output_count : Nat
  prompt_template_version : String
  idempotency_key : Option String
  created_at : Nat
  updated_at : Nat
deriving DecidableEq, Repr

/-- The `json.dumps(..., sort_keys=True)` comparison of
`{garment_images, model_params (incl. product_type), scene_params}`:
for these fixed dict shapes canonical-JSON equality is structural
equality. -/
def paramsMatch (row : ApiGenRow) (body : CreateBody) : Bool :=
  row.garment_image_urls == body.garment_images &&
  row.model_params == body.model_params &&
  row.mp_product_type == body.product_type &&
  row.scene_params == body.scene

/-- The endpoint's outcome: HTTP 400, HTTP 409, or a
`GenerationCreatedResponse` body. -/
inductive CreateResult
  | badRequest (detail : String)
  | conflict (detail : String)
  | okResp (id status : String)
deriving DecidableEq, Repr

/-- `create_generation`: validation, idempotency check, row insertion.
Cookie handling and job enqueueing (best-effort, failure swallowed) are
outside the data model.  `genId` is the fresh `generate_gen_id()` value. -/
def createGeneration (db : List ApiGenRow) (body : CreateBody)
    (sessionId genId : String) (now : Nat) : CreateResult × List ApiGenRow :=
  if 5 < body.garment_images.length then
    (CreateResult.badRequest "Maximum 5 garment images allowed.", db)
  else if body.garment_images.length = 0 then
    (CreateResult.badRequest "At least one garment image is required.", db)
  else
    let idemHit : Option (CreateResult × List ApiGenRow) :=
      match body.idempotency_key with
      | some key =>
        if key ≠ "" then
          match db.find? (fun r => r.idempotency_key == some key) with
          | some existing =>
            if paramsMatch existing body then
              some (CreateResult.okResp existing.id existing.status, db)
            else
              some (CreateResult.conflict "Idempotency key already used with different parameters.", db)
          | none => none
        else none
      | none => none
    match idemHit with
    | some r => r
    | none =>
      let row : ApiGenRow :=
        { id := genId, session_id := sessionId, status := "queued",
          garment_image_urls := body.garment_images,
          model_params := body.model_params, mp_product_type := body.product_type,
          scene_params := body.scene, output_count := body.output.count,
          prompt_template_version := "v0.1", idempotency_key := body.idempotency_key,
          created_at := now, updated_at := now }
      (CreateResult.okResp genId "queued", db ++ [row])

/-! ## Worker job (`app/worker/jobs.py`, `generate_images`) -/

/-- Outcome of a `storage.load` call: bytes, `FileNotFoundError`, or any
other raised exception. -/
inductive LoadRes
  | ok (b : Bytes)
  | notFound
  | exc (msg : String)

/-- Outcome of the `generate_garment_images` call as the job sees it:
a result, a raised `GeminiError`, or any other exception. -/
inductive GeminiOutcome
  | ok (r : GeminiResult)
  | geminiError (msg : String)
  | otherError (msg : String)

/-- A `generation_request` row as the job reads and writes it.
`model_photo_url` is the single `model_params` entry the job reads
directly (`gen.model_params.get("model_photo_url")`); the full parameter
dicts are only forwarded to `assemble_prompt`, whose outcome is part of
the environment.  `updated_at` is seconds; `none` models a NULL value
(the staleness check tests `gen.updated_at` for truthiness). -/
structure GenReq where
  id : String
  status : String
  garment_image_urls : List String
  model_photo_url : Option String
  output_count : Nat
  prompt_template_version : String
  error_message : Option String
  updated_at : Option Nat
deriving DecidableEq, Repr

/-- A `generation_output` row. -/
structure GenOutput where
  id : String
  generation_request_id : String
  image_url : String
  variation_index : Nat
  width : Option Nat
  height : Option Nat
  created_at : Nat
deriving DecidableEq, Repr

/-- A `usage_cost` row. -/
structure UsageRow where
  id : String
  generation_request_id : String
  provider : String
  model_name : String
  input_tokens : Option Nat
  output_tokens : Option Nat
  estimated_cost_usd : ℚ
  duration_ms : Nat
  recorded_at : Nat
deriving DecidableEq, Repr

/-- `ESTIMATED_COST_PER_CALL_USD = Decimal("0.02")`. -/
def estimatedCostPerCallUsd : ℚ := 2 / 100

/-- The three tables the job touches. -/
structure Db where
  reqs : List GenReq
  outputs : List GenOutput
  usages : List UsageRow
deriving DecidableEq, Repr

/-- The job's environment: the clock, the storage backend, the outcome of
prompt assembly (template loading and assembly can raise), the outcome of
the generation-API call, per-path `storage.save` failures, best-effort
image-dimension extraction (`_get_image_dimensions` never raises), the
stream of fresh ULIDs, and whether `settings.STORAGE_BACKEND == "local"`. -/
structure Env where
  now : Nat
  storageLoad : String → LoadRes
  promptOutcome : Except String String
  geminiOutcome : GeminiOutcome
  saveOutcome : String → Option String
  dims : Bytes → Option Nat × Option Nat
  newIds : Nat → String
  storageBackendLocal : Bool

/-- The job's observable result: the final committed database, the commit
snapshots in order, whether the generation API was invoked, and the storage
paths written.  The job function is total: the source's `try/except`
boundary means no exception ever propagates out of `generate_images`. -/
structure JobRes where
  final : Db
  commits : List Db
  geminiCalled : Bool
  savedPaths : List String
deriving Repr

/-- `STALE_THRESHOLD = timedelta(minutes=5)`, in seconds. -/
def staleThresholdSecs : Nat := 300

/-- The duplicate-dispatch guard: already `running` and updated within the
staleness threshold. -/
def freshRunning (now : Nat) (gen : GenReq) : Bool :=
  gen.status == "running" &&
    (match gen.updated_at with
     | some t => decide (now - t < staleThresholdSecs)
     | none => false)

/-- Writing the (ORM-tracked) request row back: every row with the same id
takes the new value. -/
def replaceReq (l : List GenReq) (g : GenReq) : List GenReq :=
  l.map fun r => if r.id = g.id then g else r

/-- `replaceReq` on a database. -/
def updateReq (db : Db) (g : GenReq) : Db :=
  { db with reqs := replaceReq db.reqs g }

/-- `f"outputs/{generation_request_id}/variation_{i}.jpg"`. -/
def outputPath (reqId : String) (i : Nat) : String :=
  "outputs/" ++ reqId ++ "/variation_" ++ toString i ++ ".jpg"

/-- The garment-image loading loop (step 3): stops at the first
`FileNotFoundError` (`Sum.inl url`, handled by `_fail_generation`) or other
exception (`Sum.inr msg`, propagating to the job boundary). -/
def loadGarments (f : String → LoadRes) : List String → Except (String ⊕ String) (List Bytes)
  | [] => Except.ok []
  | u :: us =>
    match f u with
    | LoadRes.ok b =>
      match loadGarments f us with
      | Except.ok bs => Except.ok (b :: bs)
      | Except.error e => Except.error e
    | LoadRes.notFound => Except.error (Sum.inl u)
    | LoadRes.exc m => Except.error (Sum.inr m)

/-- The output-upload loop (step 7): saves each image; an exception aborts
the loop (`(msg, paths already saved)`), propagating to the job boundary. -/
def saveAll (save : String → Option String) (reqId : String) :
    List Bytes → Nat → Except (String × List String) (List String)
  | [], _ => Except.ok []
  | _ :: bs, i =>
    let path := outputPath reqId i
    match save path with
    | some m => Except.error (m, [])
    | none =>
      match saveAll save reqId bs (i + 1) with
      | Except.ok ps => Except.ok (path :: ps)
      | Except.error (m, ps) => Except.error (m, path :: ps)

/-- `_fail_generation`: mark failed with the message and commit. -/
def failResult (env : Env) (db1 : Db) (gen1 : GenReq) (msg : String)
    (gem : Bool) (saved : List String) : JobRes :=
  let genF := { gen1 with
                status := "failed"
                error_message := some msg
                updated_at := some env.now }
  let dbF := updateReq db1 genF
  ⟨dbF, [db1, dbF], gem, saved⟩

/-- Step 8: one `GenerationOutput` row per returned image, in order. -/
def buildOutputs (env : Env) (reqId : String) (imgs : List Bytes) : List GenOutput :=
  imgs.enum.map fun p =>
    { id := env.newIds p.1, generation_request_id := reqId,
      image_url := if env.storageBackendLocal then "local://" ++ outputPath reqId p.1
                   else outputPath reqId p.1,
      variation_index := p.1,
      width := (env.dims p.2).1, height := (env.dims p.2).2,
      created_at := env.now }

/-- Step 9: the single `UsageCost` row. -/
def buildUsage (env : Env) (reqId : String) (r : GeminiResult) : UsageRow :=
  { id := env.newIds r.images.length, generation_request_id := reqId,
    provider := "google_gemini", model_name := r.model_name,
    input_tokens := r.input_tokens, output_tokens := r.output_tokens,
    estimated_cost_usd := estimatedCostPerCallUsd, duration_ms := r.duration_ms,
    recorded_at := env.now }

/-- The optional model-photo load (the step between prompt assembly and the
API call): `some m` when `storage.load` raises an exception other than
`FileNotFoundError` (which propagates to the job boundary); `none` when
there is no truthy photo URL, the load succeeds, or the photo is merely
missing (tolerated with a warning). -/
def photoExcOf (env : Env) (gen1 : GenReq) : Option String :=
  match gen1.model_photo_url with
  | some u =>
    if u ≠ "" then
      match env.storageLoad u with
      | LoadRes.exc m => some m
      | _ => none
    else none
  | none => none

/-- The successful tail of the job (steps 8-10): output rows, the usage row
and the `succeeded` mark, all committed in one transaction. -/
def successResult (env : Env) (db1 : Db) (gen1 : GenReq) (reqId : String)
    (r : GeminiResult) (paths : List String) : JobRes :=
  let gen2 := { gen1 with status := "succeeded", updated_at := some env.now }
  let db2 : Db :=
    { reqs := replaceReq db1.reqs gen2,
      outputs := db1.outputs ++ buildOutputs env reqId r.images,
      usages := db1.usages ++ [buildUsage env reqId r] }
  ⟨db2, [db1, db2], true, paths⟩

/-- Steps 3-10 of `generate_images`, after the request has been loaded, the
duplicate-dispatch guard has passed, and the `running` mark has been
committed: `gen1` is the (session-tracked) row already marked `running` and
`db1` the state just committed.  Exceptions that reach the job boundary are
handled by the outer `except` (re-query and `_fail_generation` with an
`Unhandled error:` message). -/
def runBody (env : Env) (db1 : Db) (gen1 : GenReq) (reqId : String) : JobRes :=
  match loadGarments env.storageLoad gen1.garment_image_urls with
  | Except.error (Sum.inl url) =>
    failResult env db1 gen1 ("Garment image not found: " ++ url) false []
  | Except.error (Sum.inr m) =>
    failResult env db1 gen1 ("Unhandled error: " ++ m) false []
  | Except.ok imgs =>
    if imgs.isEmpty then
      failResult env db1 gen1 "No garment images could be loaded." false []
    else
      match env.promptOutcome with
      | Except.error m =>
        failResult env db1 gen1 ("Prompt assembly failed: " ++ m) false []
      | Except.ok _ =>
        match photoExcOf env gen1 with
        | some m => failResult env db1 gen1 ("Unhandled error: " ++ m) false []
        | none =>
          match env.geminiOutcome with
          | GeminiOutcome.geminiError m =>
            failResult env db1 gen1 ("Gemini API error: " ++ m) true []
          | GeminiOutcome.otherError m =>
            failResult env db1 gen1 ("Unexpected error during generation: " ++ m) true []
          | GeminiOutcome.ok r =>
            match saveAll env.saveOutcome reqId r.images 0 with
            | Except.error (m, saved) =>
              failResult env db1 gen1 ("Unhandled error: " ++ m) true saved
            | Except.ok paths => successResult env db1 gen1 reqId r paths

/-- `generate_images`: load the request (absent: log and return), apply the
duplicate-dispatch guard, then run the body. -/
def generateImages (env : Env) (db0 : Db) (reqId : String) : JobRes :=
  match db0.reqs.find? (fun r => r.id == reqId) with
  | none => ⟨db0, [], false, []⟩
  | some gen =>
    if freshRunning env.now gen then ⟨db0, [], false, []⟩
    else
      let gen1 := { gen with status := "running", updated_at := some env.now }
      runBody env (updateReq db0 gen1) gen1 reqId

/-- `storage.load` returned bytes. -/
def loadOkB : LoadRes → Bool
  | LoadRes.ok _ => true
  | _ => false

/-- `storage.load` raised something other than `FileNotFoundError`. -/
def loadExcB : LoadRes → Bool
  | LoadRes.exc _ => true
  | _ => false

/-- Prompt assembly completed. -/
def promptOkB : Except String String → Bool
  | Except.ok _ => true
  | _ => false

/-- No step of the job body raises: all garment images load, the list is
nonempty, prompt assembly succeeds, the optional model photo load does not
raise (not-found is tolerated), the API call returns, and every output
upload succeeds. -/
def stepsAllSucceed (env : Env) (gen : GenReq) (reqId : String) : Bool :=
  gen.garment_image_urls.all (fun u => loadOkB (env.storageLoad u)) &&
  !gen.garment_image_urls.isEmpty &&
  promptOkB env.promptOutcome &&
  (match gen.model_photo_url with
   | some u => if u ≠ "" then !loadExcB (env.storageLoad u) else true
   | none => true) &&
  (match env.geminiOutcome with
   | GeminiOutcome.ok r =>
     (List.range r.images.length).all fun i => (env.saveOutcome (outputPath reqId i)).isNone
   | _ => false)

/-! ## Concrete fixtures used by witnesses and counterexamples -/

/-- Is an attempt outcome a success? -/
def exceptIsOk : Except AttemptErr (Bytes × Usage) → Bool
  | Except.ok _ => true
  | Except.error _ => false

/-- The `retryable` flag of a classification outcome (`false` on success). -/
def errRetryable : Except GeminiError (Bytes × Usage) → Bool
  | Except.error e => e.retryable
  | Except.ok _ => false

/-- A rate-limited response. -/
def resp429 : HttpResponse := ⟨429, ⟨none, [], ⟨none, none⟩⟩, "rate limited"⟩

/-- A server-error response. -/
def resp500 : HttpResponse := ⟨500, ⟨none, [], ⟨none, none⟩⟩, "server error"⟩

/-- A 501 response (5xx but not in the code's retryable tuple). -/
def resp501 : HttpResponse := ⟨501, ⟨none, [], ⟨none, none⟩⟩, "not implemented"⟩

/-- A client-error response. -/
def resp400 : HttpResponse := ⟨400, ⟨none, [], ⟨none, none⟩⟩, "bad request"⟩

/-- A well-formed success response carrying one image data URL. -/
def respOkW : HttpResponse :=
  ⟨200, ⟨none, [⟨⟨[⟨"data:image/png;base64,p"⟩], ""⟩⟩], ⟨none, none⟩⟩, "ok"⟩

/-- A well-formed 200 response whose message carries no images. -/
def noImagesResp : HttpResponse :=
  ⟨200, ⟨none, [⟨⟨[], "no image content"⟩⟩], ⟨some 10, some 5⟩⟩, "resp text"⟩

/-- A 200 response whose image URL is not a data URL. -/
def badUrlResp : HttpResponse :=
  ⟨200, ⟨none, [⟨⟨[⟨"not-a-data-url"⟩], ""⟩⟩], ⟨none, none⟩⟩, "ok"⟩

/-- Oracle: every call succeeds. -/
def oracleGood : NetOracle := fun _ _ => NetOutcome.response respOkW

/-- Oracle: every call is rate-limited. -/
def oracle429 : NetOracle := fun _ _ => NetOutcome.response resp429

/-- Oracle: every call hits a 500. -/
def oracle500 : NetOracle := fun _ _ => NetOutcome.response resp500

/-- Oracle: every call hits a 400. -/
def oracleFatal : NetOracle := fun _ _ => NetOutcome.response resp400

/-- Oracle: first attempt hits a 500, later attempts raise a network error. -/
def oracleMix : NetOracle := fun _ a =>
  if a = 0 then NetOutcome.response resp500 else NetOutcome.netError "connection reset"

/-- A successful client batch result (three images, no token reporting). -/
def rGood : GeminiResult := ⟨["p", "p", "p"], none, none, "m", 0⟩

/-- A job environment in which every step succeeds. -/
def envW : Env :=
  { now := 1000,
    storageLoad := fun _ => LoadRes.ok "garmentbytes",
    promptOutcome := Except.ok "prompt text",
    geminiOutcome := GeminiOutcome.ok rGood,
    saveOutcome := fun _ => none,
    dims := fun _ => (some 1024, some 1536),
    newIds := fun i => "ulid_" ++ toString i,
    storageBackendLocal := true }

/-- Like `envW` but the generation-API call raises a `GeminiError`. -/
def envFail : Env := { envW with geminiOutcome := GeminiOutcome.geminiError "quota exceeded" }

/-- A queued generation request. -/
def reqW : GenReq := ⟨"gen_1", "queued", ["local://uploads/s/front.jpg"], none, 3, "v0.1", none, some 900⟩

/-- The same request while running, updated recently. -/
def reqRunningFresh : GenReq := { reqW with status := "running", updated_at := some 900 }

/-- The same request while running, last updated long ago. -/
def reqRunningStale : GenReq := { reqW with status := "running", updated_at := some 100 }

/-- Valid model parameters for a submission. -/
def mpSchemaW : ModelParamsSchema := ⟨"25-34", "feminine", "", "4", "simple", "curvy", "", "", "", none, none⟩

/-- Valid scene parameters for a submission. -/
def sceneW : SceneSchema := ⟨"studio_white", "front_standing", "full_body"⟩

/-- A submission with an idempotency key. -/
def bodyA : CreateBody :=
  ⟨some "key-1", "clothing", ["local://uploads/s/front.jpg"], mpSchemaW, sceneW, ⟨3, "high"⟩⟩

/-- The same submission except for the requested output count. -/
def bodyB : CreateBody := { bodyA with output := ⟨1, "high"⟩ }

/-- The database after the first submission. -/
def dbAfterA : List ApiGenRow := (createGeneration [] bodyA "sess" "gen_1" 0).2

/-- The row stored for `bodyA`. -/
def rowA : ApiGenRow :=
  { id := "gen_1", session_id := "sess", status := "queued",
    garment_image_urls := ["local://uploads/s/front.jpg"], model_params := mpSchemaW,
    mp_product_type := "clothing", scene_params := sceneW, output_count := 3,
    prompt_template_version := "v0.1", idempotency_key := some "key-1",
    created_at := 0, updated_at := 0 }

/-- A submission reusing `key-1` with a different product type. -/
def bodyC : CreateBody := { bodyA with product_type := "accessories" }

/-- A small template mapping one environment and one ethnicity. -/
def tinyTemplate : Template :=
  ⟨[("studio_white", "a seamless white studio backdrop")], [], [], [], [],
   [("sri_lankan", "a Sri Lankan model")], [], [], "", "", ""⟩

/-- Prompt-layer model params with an ethnicity key the template does not map. -/
def cexMp : MParams := ⟨none, none, none, none, none, none, none, some "martian", none, none, none⟩

/-- Prompt-layer model params with no keys at all. -/
def cexMpNone : MParams := ⟨none, none, none, none, none, none, none, none, none, none, none⟩

/-- Scene params with every key absent. -/
def cexSp : SParams := ⟨none, none, none⟩

/-- Scene params with an environment key the template does not map. -/
def cexSpEnv : SParams := ⟨some "marsbase", none, none⟩

/-! ## Lemmas about the local storage backend -/

/-- A string with no occurrence of `local://` is left unchanged by the
replacement scan, whatever the fuel. -/
theorem stripLocalAux_id (fuel : Nat) :
    ∀ s : List Char, hasSub s "local://".data = false → stripLocalAux fuel s = s := by
  induction fuel with
  | zero => intro s _; rfl
  | succ n ih =>
    intro s h
    cases s with
    | nil => rfl
    | cons c rest =>
      rw [hasSub] at h
      simp only [Bool.or_eq_false_iff] at h
      simp only [stripLocalAux, h.1, Bool.false_eq_true, if_false, ih rest h.2]

/-- `isPrefixOf` holds of a list and itself-plus-tail. -/
theorem isPrefixOf_append_self (l d : List Char) : l.isPrefixOf (l ++ d) = true := by
  induction l with
  | nil => simp [List.isPrefixOf]
  | cons c t ih => simp [List.isPrefixOf, ih]

/-- Removing `local://` from `local://` ++ `p` gives back `p` when `p`
itself contains no occurrence. -/
theorem stripLocal_roundtrip (d : List Char) (h : hasSub d "local://".data = false) :
    stripLocalAux ("local://".data ++ d).length ("local://".data ++ d) = d := by
  have h8 : ("local://".data).length = 8 := rfl
  have hlen : ("local://".data ++ d).length = (7 + d.length) + 1 := by
    rw [List.length_append, h8]; omega
  rw [hlen]
  have hpre : "local://".data ++ d = 'l' :: ("ocal://".data ++ d) := rfl
  rw [hpre, stripLocalAux]
  rw [if_pos]
  · have hdrop : ("ocal://".data ++ d).drop 7 = d := by
      have : ("ocal://".data).length = 7 := rfl
      rw [← this, List.drop_left]
    rw [hdrop]
    exact stripLocalAux_id _ d h
  · rw [← hpre]
    exact isPrefixOf_append_self _ d

/-- The reference returned by `save` resolves back to the saved path. -/
theorem pyRemoveLocal_localSave (p : String) (h : hasSub p.data "local://".data = false) :
    pyRemoveLocal ("local://" ++ p) = p := by
  cases p with
  | mk d =>
    have hs : ("local://" ++ String.mk d) = String.mk ("local://".data ++ d) := rfl
    rw [hs]
    unfold pyRemoveLocal
    exact congrArg String.mk (stripLocal_roundtrip d h)

/-! ## C10 -/

/-- C10 counterexample: the claimed round-trip law is universally quantified
over relative paths, but `load` removes every occurrence of `local://`
(Python `str.replace`), not just the leading one.  For the path
`alocal://b`, `save` stores under `alocal://b` and returns
`local://alocal://b`, which `load` resolves to `ab`: the read fails
(`FileNotFoundError`, modelled as `none`) instead of returning the bytes. -/
theorem c10_counterexample :
    (localSave (fun _ => none) "imgbytes" "alocal://b").2 = "local://alocal://b" ∧
    localLoad (localSave (fun _ => none) "imgbytes" "alocal://b").1
      ((localSave (fun _ => none) "imgbytes" "alocal://b").2) = none := by
  exact ⟨rfl, by decide⟩

/-- C10 (amended): for every byte string `b` and relative path `p` that does
not contain `local://` as a substring, `load (save b p) = b`, because `save`
returns `local://` ++ `p` and `load` removes `local://` occurrences before
resolving the path under the storage root. -/
theorem c10_roundtrip (store : FileStore) (b : Bytes) (p : String)
    (h : hasSub p.data "local://".data = false) :
    localLoad (localSave store b p).1 (localSave store b p).2 = some b := by
  show (fun q => if q = p then some b else store q) (pyRemoveLocal ("local://" ++ p)) = some b
  rw [pyRemoveLocal_localSave p h]
  simp

/-- C10 witness: the round-trip law evaluated at a concrete store, byte
string and path. -/
theorem c10_witness :
    hasSub "outputs/gen_1/variation_0.jpg".data "local://".data = false ∧
    localLoad (localSave (fun _ => none) "bytes" "outputs/gen_1/variation_0.jpg").1
      (localSave (fun _ => none) "bytes" "outputs/gen_1/variation_0.jpg").2 = some "bytes" :=
  ⟨by decide, c10_roundtrip (fun _ => none) "bytes" "outputs/gen_1/variation_0.jpg" (by decide)⟩

/-! ## C9 -/

/-- C9: invoking `generate_images` with a request id not present in the
database returns without raising and without touching any state: the
database is unchanged, nothing is committed, the generation API is not
invoked, and no file is written. -/
theorem c9_missing_request_noop (env : Env) (db0 : Db) (reqId : String)
    (h : db0.reqs.find? (fun r => r.id == reqId) = none) :
    generateImages env db0 reqId = ⟨db0, [], false, []⟩ := by
  unfold generateImages
  rw [h]

/-- C9 witness: the no-op evaluated on a one-row database and an unknown id. -/
theorem c9_witness :
    (Db.mk [reqW] [] []).reqs.find? (fun r => r.id == "gen_404") = none ∧
    generateImages envW ⟨[reqW], [], []⟩ "gen_404" = ⟨⟨[reqW], [], []⟩, [], false, []⟩ :=
  ⟨by decide, c9_missing_request_noop envW ⟨[reqW], [], []⟩ "gen_404" (by decide)⟩

/-! ## Lemmas about the client retry loop -/

/-- Unfolding `genVarsAux` over the three fixed variations: a success means
each of variations 0, 1, 2 succeeded, and the image list collects their
images in variation order. -/
theorem genVars3_ok (oracle : NetOracle) (mr : Nat) {imgs : List Bytes} {a b : Nat}
    (h : (genVarsAux oracle mr [0, 1, 2] [] 0 0).1 = Except.ok (imgs, a, b)) :
    ∃ b0 u0 b1 u1 b2 u2,
      (runVariation oracle mr 0).1 = Except.ok (b0, u0) ∧
      (runVariation oracle mr 1).1 = Except.ok (b1, u1) ∧
      (runVariation oracle mr 2).1 = Except.ok (b2, u2) ∧
      imgs = [b0, b1, b2] := by
  simp only [genVarsAux] at h
  rcases h0 : (runVariation oracle mr 0).1 with e0 | ⟨b0, u0⟩ <;> rw [h0] at h
  · simp at h
  · rcases h1 : (runVariation oracle mr 1).1 with e1 | ⟨b1, u1⟩ <;> rw [h1] at h
    · simp at h
    · rcases h2 : (runVariation oracle mr 2).1 with e2 | ⟨b2, u2⟩ <;> rw [h2] at h
      · simp at h
      · refine ⟨b0, u0, b1, u1, b2, u2, rfl, rfl, rfl, ?_⟩
        simp at h
        exact h.1.symm

/-- A successful `generate_garment_images` batch is exactly the three
per-variation successes, in variation order. -/
theorem generateGarmentImages_ok_images {oracle : NetOracle} {apiKey modelName : String}
    {mr : Nat} {r : GeminiResult}
    (h : (generateGarmentImages oracle apiKey modelName mr).1 = Except.ok r) :
    ∃ b0 u0 b1 u1 b2 u2,
      (runVariation oracle mr 0).1 = Except.ok (b0, u0) ∧
      (runVariation oracle mr 1).1 = Except.ok (b1, u1) ∧
      (runVariation oracle mr 2).1 = Except.ok (b2, u2) ∧
      r.images = [b0, b1, b2] := by
  unfold generateGarmentImages at h
  by_cases hk : apiKey = ""
  · rw [if_pos hk] at h
    simp at h
  · rw [if_neg hk] at h
    rcases hg : genVarsAux oracle mr [0, 1, 2] [] 0 0 with ⟨e | ⟨imgs, ta, tb⟩, sleeps⟩ <;>
      rw [hg] at h
    · simp at h
    · have hg1 : (genVarsAux oracle mr [0, 1, 2] [] 0 0).1 = Except.ok (imgs, ta, tb) := by
        rw [hg]
      obtain ⟨b0, u0, b1, u1, b2, u2, h0, h1, h2, him⟩ := genVars3_ok oracle mr hg1
      refine ⟨b0, u0, b1, u1, b2, u2, h0, h1, h2, ?_⟩
      simp at h
      rw [← h, him]

/-- A successful batch always carries exactly three images. -/
theorem generateGarmentImages_ok_length {oracle : NetOracle} {apiKey modelName : String}
    {mr : Nat} {r : GeminiResult}
    (h : (generateGarmentImages oracle apiKey modelName mr).1 = Except.ok r) :
    r.images.length = 3 := by
  obtain ⟨b0, u0, b1, u1, b2, u2, _, _, _, him⟩ := generateGarmentImages_ok_images h
  rw [him]
  rfl

/-- If every attempt for a variation fails, the retry loop ends in an error
(either a fatal error re-raised at once or the exhaustion error). -/
theorem runVarAux_err_of_all_fail (oracle : NetOracle) (mr v : Nat)
    (hall : ∀ a, a ≤ mr → exceptIsOk (attemptCall oracle v a) = false) :
    ∀ fuel attempt last, attempt ≤ mr →
      ∃ e, (runVarAux oracle mr v attempt fuel last).1 = Except.error e := by
  intro fuel
  induction fuel with
  | zero => intro attempt last _; exact ⟨_, rfl⟩
  | succ n ih =>
    intro attempt last hle
    rcases hc : attemptCall oracle v attempt with err | x
    · rcases err with e | m
      · by_cases hret : e.retryable = true
        · by_cases hlt : attempt < mr
          · have := ih (attempt + 1) e.message hlt
            simpa [runVarAux, hc, hret, hlt] using this
          · refine ⟨geminiExhaustMsg v mr e.message, ?_⟩
            simp [runVarAux, hc, hret, hlt]
        · refine ⟨e, ?_⟩
          simp only [Bool.not_eq_true] at hret
          simp [runVarAux, hc, hret]
      · by_cases hlt : attempt < mr
        · have := ih (attempt + 1) m hlt
          simpa [runVarAux, hc, hlt] using this
        · refine ⟨geminiExhaustMsg v mr m, ?_⟩
          simp [runVarAux, hc, hlt]
    · have := hall attempt hle
      rw [hc] at this
      simp [exceptIsOk] at this

/-- If some listed variation fails, the variation loop ends in an error. -/
theorem genVarsAux_err_of_mem (oracle : NetOracle) (mr : Nat) :
    ∀ (vs : List Nat) (acc : List Bytes) (tin tout : Nat) (v : Nat), v ∈ vs →
      (∃ e, (runVariation oracle mr v).1 = Except.error e) →
      ∃ e, (genVarsAux oracle mr vs acc tin tout).1 = Except.error e := by
  intro vs
  induction vs with
  | nil => intro _ _ _ v hv _; simp at hv
  | cons w ws ih =>
    intro acc tin tout v hv he
    rcases hr : (runVariation oracle mr w).1 with e | ⟨img, u⟩
    · exact ⟨e, by simp [genVarsAux, hr]⟩
    · rcases List.mem_cons.mp hv with hvw | hvs
      · obtain ⟨e, he⟩ := he
        rw [hvw] at he
        rw [he] at hr
        cases hr
      · have := ih (acc ++ [img]) (tin + u.prompt_tokens.getD 0)
          (tout + u.completion_tokens.getD 0) v hvs he
        simpa [genVarsAux, hr] using this

/-- Full characterisation of the backoff sleeps of the retry loop: starting
at `attempt`, at most `maxRetries - attempt` sleeps are performed, and the
`i`-th sleep belongs to the failing attempt `attempt + i`: `15 * 2 ^ a`
after a retryable `GeminiError` (HTTP 429 or retryable 5xx), `2 ^ (a + 1)`
after any other exception. -/
theorem runVarAux_waits_spec (oracle : NetOracle) (mr v : Nat) :
    ∀ fuel attempt last,
      (runVarAux oracle mr v attempt fuel last).2.length ≤ mr - attempt ∧
      ∀ i w, (runVarAux oracle mr v attempt fuel last).2.get? i = some w →
        (w = 15 * 2 ^ (attempt + i) ∧
          ∃ e, attemptCall oracle v (attempt + i) = Except.error (AttemptErr.gem e) ∧
            e.retryable = true) ∨
        (w = 2 ^ (attempt + i + 1) ∧
          ∃ m, attemptCall oracle v (attempt + i) = Except.error (AttemptErr.exc m)) := by
  intro fuel
  induction fuel with
  | zero =>
    intro attempt last
    refine ⟨by simp [runVarAux], ?_⟩
    intro i w hw
    simp [runVarAux] at hw
  | succ n ih =>
    intro attempt last
    rcases hc : attemptCall oracle v attempt with err | x
    · rcases err with e | m
      · by_cases hret : e.retryable = true
        · by_cases hlt : attempt < mr
          · have hw2 : (runVarAux oracle mr v attempt (n + 1) last).2 =
                15 * 2 ^ attempt :: (runVarAux oracle mr v (attempt + 1) n e.message).2 := by
              simp [runVarAux, hc, hret, hlt]
            have hrec := ih (attempt + 1) e.message
            refine ⟨?_, ?_⟩
            · rw [hw2]
              have h1 := hrec.1
              simp only [List.length_cons]
              omega
            · intro i w hw
              rw [hw2] at hw
              cases i with
              | zero =>
                rw [List.get?_cons_zero] at hw
                injection hw with hw
                left
                refine ⟨by rw [← hw, Nat.add_zero], e, ?_, hret⟩
                rw [Nat.add_zero]
                exact hc
              | succ j =>
                rw [List.get?_cons_succ] at hw
                have hj := hrec.2 j w hw
                have harith : attempt + 1 + j = attempt + (j + 1) := by omega
                rw [harith] at hj
                exact hj
          · refine ⟨by simp [runVarAux, hc, hret, hlt], ?_⟩
            intro i w hw
            simp [runVarAux, hc, hret, hlt] at hw
        · simp only [Bool.not_eq_true] at hret
          refine ⟨by simp [runVarAux, hc, hret], ?_⟩
          intro i w hw
          simp [runVarAux, hc, hret] at hw
      · by_cases hlt : attempt < mr
        · have hw2 : (runVarAux oracle mr v attempt (n + 1) last).2 =
              2 ^ (attempt + 1) :: (runVarAux oracle mr v (attempt + 1) n m).2 := by
            simp [runVarAux, hc, hlt]
          have hrec := ih (attempt + 1) m
          refine ⟨?_, ?_⟩
          · rw [hw2]
            have h1 := hrec.1
            simp only [List.length_cons]
            omega
          · intro i w hw
            rw [hw2] at hw
            cases i with
            | zero =>
              rw [List.get?_cons_zero] at hw
              injection hw with hw
              right
              refine ⟨by rw [← hw, Nat.add_zero], m, ?_⟩
              rw [Nat.add_zero]
              exact hc
            | succ j =>
              rw [List.get?_cons_succ] at hw
              have hj := hrec.2 j w hw
              have harith : attempt + 1 + j = attempt + (j + 1) := by omega
              rw [harith] at hj
              exact hj
        · refine ⟨by simp [runVarAux, hc, hlt], ?_⟩
          intro i w hw
          simp [runVarAux, hc, hlt] at hw
    · refine ⟨by simp [runVarAux, hc], ?_⟩
      intro i w hw
      simp [runVarAux, hc] at hw

/-! ## C4 -/

/-- C4 counterexample: a well-formed 200 response with no image data does
NOT raise a retryable error.  `_call_openrouter` raises
`GeminiError("OpenRouter returned no images in the response.")` with the
constructor default `retryable=False`, so `generate_garment_images`
re-raises it immediately instead of retrying — contradicting the claim
that an empty-image response is retryable. -/
theorem c4_counterexample :
    callOpenrouterClassify noImagesResp =
      Except.error ⟨"OpenRouter returned no images in the response.", false⟩ ∧
    errRetryable (callOpenrouterClassify noImagesResp) = false := ⟨rfl, rfl⟩

/-- C4 (amended): HTTP 429, 500, 502, 503 and 504 responses raise retryable
errors; every other non-200 status (including other 5xx codes such as 501
and all other 4xx) raises a fatal error; a well-formed 200 response with no
image data raises a FATAL (non-retryable) error, as do malformed image data
URLs; a non-retryable `GeminiError` on the first attempt aborts the batch
immediately with no backoff sleep; a missing API key fails before any call. -/
theorem c4_amended :
    (∀ resp : HttpResponse,
      ((resp.status_code = 429 ∨ resp.status_code = 500 ∨ resp.status_code = 502 ∨
          resp.status_code = 503 ∨ resp.status_code = 504) →
        ∃ e, callOpenrouterClassify resp = Except.error e ∧ e.retryable = true) ∧
      (resp.status_code ≠ 200 →
        ¬(resp.status_code = 429 ∨ resp.status_code = 500 ∨ resp.status_code = 502 ∨
            resp.status_code = 503 ∨ resp.status_code = 504) →
        ∃ e, callOpenrouterClassify resp = Except.error e ∧ e.retryable = false) ∧
      (resp.status_code = 200 → resp.body.error = none →
        ∀ c rest, resp.body.choices = c :: rest → c.message.images = [] →
          callOpenrouterClassify resp =
            Except.error ⟨"OpenRouter returned no images in the response.", false⟩) ∧
      (resp.status_code = 200 → resp.body.error = none →
        ∀ c rest img irest, resp.body.choices = c :: rest →
          c.message.images = img :: irest → img.url ≠ "" →
          parseDataUrl img.url.data = none →
          ∃ e, callOpenrouterClassify resp = Except.error e ∧ e.retryable = false)) ∧
    (∀ (oracle : NetOracle) (mr v : Nat) (e : GeminiError),
      attemptCall oracle v 0 = Except.error (AttemptErr.gem e) → e.retryable = false →
      runVariation oracle mr v = (Except.error e, [])) ∧
    (∀ (oracle : NetOracle) (modelName : String) (mr : Nat),
      generateGarmentImages oracle "" modelName mr =
        (Except.error ⟨"OPENROUTER_API_KEY is not configured.", false⟩, [])) := by
  refine ⟨fun resp => ⟨?_, ?_, ?_, ?_⟩, ?_, ?_⟩
  · intro hs
    have hne : resp.status_code ≠ 200 := by
      rcases hs with h | h | h | h | h <;> omega
    unfold callOpenrouterClassify
    rw [if_pos hne]
    exact ⟨_, rfl, decide_eq_true hs⟩
  · intro hne hnot
    unfold callOpenrouterClassify
    rw [if_pos hne]
    exact ⟨_, rfl, decide_eq_false hnot⟩
  · intro h200 herr c rest hch him
    unfold callOpenrouterClassify
    rw [if_neg (fun hn => hn h200)]
    simp only [herr, hch, him]
  · intro h200 herr c rest img irest hch him hurl hparse
    unfold callOpenrouterClassify
    rw [if_neg (fun hn => hn h200)]
    simp only [herr, hch, him]
    rw [if_neg hurl]
    unfold decodeDataUrl
    simp only [hparse]
    exact ⟨_, rfl, rfl⟩
  · intro oracle mr v e hatt hret
    unfold runVariation
    rw [runVarAux, hatt]
    simp [hret]
  · intro oracle modelName mr
    unfold generateGarmentImages
    rw [if_pos rfl]

/-- C4 witness: each classification arm evaluated at a concrete response
(429 retryable, 501 fatal, empty-image 200 fatal, malformed data URL fatal,
immediate abort on a 400, missing key). -/
theorem c4_witness :
    (∃ e, callOpenrouterClassify resp429 = Except.error e ∧ e.retryable = true) ∧
    (∃ e, callOpenrouterClassify resp501 = Except.error e ∧ e.retryable = false) ∧
    callOpenrouterClassify noImagesResp =
      Except.error ⟨"OpenRouter returned no images in the response.", false⟩ ∧
    (∃ e, callOpenrouterClassify badUrlResp = Except.error e ∧ e.retryable = false) ∧
    runVariation oracleFatal 2 0 =
      (Except.error ⟨"OpenRouter API error (HTTP 400): bad request", false⟩, []) ∧
    generateGarmentImages oracleFatal "" "m" 2 =
      (Except.error ⟨"OPENROUTER_API_KEY is not configured.", false⟩, []) :=
  ⟨(c4_amended.1 resp429).1 (Or.inl rfl),
   (c4_amended.1 resp501).2.1 (by decide) (by decide),
   (c4_amended.1 noImagesResp).2.2.1 rfl rfl _ _ rfl rfl,
   (c4_amended.1 badUrlResp).2.2.2 rfl rfl _ _ _ _ rfl rfl (by decide) (by decide),
   c4_amended.2.1 oracleFatal 2 0
     ⟨"OpenRouter API error (HTTP 400): bad request", false⟩ rfl rfl,
   c4_amended.2.2 oracleFatal "m" 2⟩

/-! ## C5 -/

/-- C5: a successful `generate_garment_images` batch carries exactly the
three per-variation images in variation order (never a partial set), and if
any variation in range exhausts all of its `max_retries + 1` attempts
without a success, the whole call raises. -/
theorem c5_batch_all_or_nothing (oracle : NetOracle) (apiKey modelName : String) (mr : Nat) :
    (∀ r, (generateGarmentImages oracle apiKey modelName mr).1 = Except.ok r →
      r.images.length = 3 ∧
      ∃ b0 u0 b1 u1 b2 u2,
        (runVariation oracle mr 0).1 = Except.ok (b0, u0) ∧
        (runVariation oracle mr 1).1 = Except.ok (b1, u1) ∧
        (runVariation oracle mr 2).1 = Except.ok (b2, u2) ∧
        r.images = [b0, b1, b2]) ∧
    (∀ v, v < 3 → (∀ a, a ≤ mr → exceptIsOk (attemptCall oracle v a) = false) →
      ∃ e, (generateGarmentImages oracle apiKey modelName mr).1 = Except.error e) := by
  constructor
  · intro r h
    exact ⟨generateGarmentImages_ok_length h, generateGarmentImages_ok_images h⟩
  · intro v hv hall
    unfold generateGarmentImages
    by_cases hk : apiKey = ""
    · rw [if_pos hk]
      exact ⟨_, rfl⟩
    · rw [if_neg hk]
      have hva := runVarAux_err_of_all_fail oracle mr v hall (mr + 1) 0 "None" (Nat.zero_le mr)
      have hmem : v ∈ [0, 1, 2] := by
        have : v = 0 ∨ v = 1 ∨ v = 2 := by omega
        rcases this with h | h | h <;> simp [h]
      have := genVarsAux_err_of_mem oracle mr [0, 1, 2] [] 0 0 v hmem hva
      obtain ⟨e, he⟩ := this
      rcases hg : genVarsAux oracle mr [0, 1, 2] [] 0 0 with ⟨e' | ok, sleeps⟩
      · exact ⟨e', rfl⟩
      · rw [hg] at he
        cases he

/-- C5 witness: a fully successful oracle yields exactly the three
per-variation images; an oracle whose every attempt fails makes the batch
raise (here with `max_retries = 0`, one attempt per variation). -/
theorem c5_witness :
    (generateGarmentImages oracleGood "k" "m" 2).1 = Except.ok rGood ∧
    (rGood.images.length = 3 ∧
      ∃ b0 u0 b1 u1 b2 u2,
        (runVariation oracleGood 2 0).1 = Except.ok (b0, u0) ∧
        (runVariation oracleGood 2 1).1 = Except.ok (b1, u1) ∧
        (runVariation oracleGood 2 2).1 = Except.ok (b2, u2) ∧
        rGood.images = [b0, b1, b2]) ∧
    (∃ e, (generateGarmentImages oracle500 "k" "m" 0).1 = Except.error e) :=
  ⟨rfl,
   (c5_batch_all_or_nothing oracleGood "k" "m" 2).1 rGood rfl,
   (c5_batch_all_or_nothing oracle500 "k" "m" 0).2 0 (by omega)
     (fun a ha => by
       have h0 : a = 0 := Nat.le_zero.mp ha
       subst h0
       rfl)⟩

/-! ## C6 -/

/-- C6 counterexample: a rate-limit failure does NOT wait longer than a
generic transient 5xx failure.  The 15-second doubling backoff is applied
to every retryable `GeminiError` — an always-429 oracle and an always-500
oracle sleep exactly the same `[15]` before the second (final) attempt with
`max_retries = 1`, refuting the claimed strict separation between the
rate-limit and generic-transient backoff bases. -/
theorem c6_counterexample :
    (runVariation oracle429 1 0).2 = [15] ∧
    (runVariation oracle500 1 0).2 = [15] ∧
    ¬((runVariation oracle500 1 0).2.headD 0 < (runVariation oracle429 1 0).2.headD 0) :=
  ⟨rfl, rfl, by decide⟩

/-- C6 (amended): the retry loop performs at most `max_retries` backoff
sleeps per variation, and the sleep after failing attempt `i` is
`15 * 2 ^ i` seconds when the failure is a retryable `GeminiError` (HTTP
429 and the retryable 5xx responses alike) and `2 ^ (i + 1)` seconds when
it is any other exception (e.g. a network error); each class doubles
exponentially with the attempt index, and the API-error base (15 s) is
longer than the generic-exception base (2 s), but HTTP 429 gets no longer
backoff than a retryable 5xx. -/
theorem c6_backoff (oracle : NetOracle) (mr v : Nat) :
    (runVariation oracle mr v).2.length ≤ mr ∧
    ∀ i w, (runVariation oracle mr v).2.get? i = some w →
      (w = 15 * 2 ^ i ∧
        ∃ e, attemptCall oracle v i = Except.error (AttemptErr.gem e) ∧ e.retryable = true) ∨
      (w = 2 ^ (i + 1) ∧ ∃ m, attemptCall oracle v i = Except.error (AttemptErr.exc m)) := by
  unfold runVariation
  have h := runVarAux_waits_spec oracle mr v (mr + 1) 0 "None"
  refine ⟨by simpa using h.1, ?_⟩
  intro i w hw
  have h2 := h.2 i w hw
  simpa using h2

/-- C6 witness: an oracle that hits a 500 on the first attempt and a
network error afterwards sleeps 15 s (= 15·2⁰) then 4 s (= 2²). -/
theorem c6_witness :
    (runVariation oracleMix 2 0).2.length ≤ 2 ∧
    ((15 = 15 * 2 ^ 0 ∧
        ∃ e, attemptCall oracleMix 0 0 = Except.error (AttemptErr.gem e) ∧ e.retryable = true) ∨
      (15 = 2 ^ (0 + 1) ∧ ∃ m, attemptCall oracleMix 0 0 = Except.error (AttemptErr.exc m))) ∧
    ((4 = 15 * 2 ^ 1 ∧
        ∃ e, attemptCall oracleMix 0 1 = Except.error (AttemptErr.gem e) ∧ e.retryable = true) ∨
      (4 = 2 ^ (1 + 1) ∧ ∃ m, attemptCall oracleMix 0 1 = Except.error (AttemptErr.exc m))) :=
  ⟨(c6_backoff oracleMix 2 0).1,
   (c6_backoff oracleMix 2 0).2 0 15 rfl,
   (c6_backoff oracleMix 2 0).2 1 4 rfl⟩

/-! ## C7 -/

/-- C7 counterexample: the idempotency comparison omits the requested
output count.  A second submission with the same key whose only difference
is `output.count` (1 instead of 3) is treated as identical — the endpoint
returns the original id with no new row instead of the claimed HTTP 409
conflict. -/
theorem c7_counterexample :
    bodyA.idempotency_key = bodyB.idempotency_key ∧
    bodyB.output.count ≠ bodyA.output.count ∧
    createGeneration [] bodyA "sess" "gen_1" 0 = (CreateResult.okResp "gen_1" "queued", dbAfterA) ∧
    createGeneration dbAfterA bodyB "sess" "gen_2" 1 =
      (CreateResult.okResp "gen_1" "queued", dbAfterA) :=
  ⟨rfl, by decide, by decide, by decide⟩

/-- C7 (amended): for a valid submission whose idempotency key already has a
stored row, the endpoint compares garment images, model params (with the
embedded product type) and scene params — but not the output count: if that
comparison matches, it returns the original record's identifier with no new
row and the stored rows unmodified; if it differs, it answers HTTP 409 and
creates no row. -/
theorem c7_idempotency (db : List ApiGenRow) (body : CreateBody) (sessionId genId : String)
    (now : Nat) (key : String) (existing : ApiGenRow)
    (hval1 : body.garment_images.length ≤ 5)
    (hval2 : body.garment_images.length ≠ 0)
    (hkey : body.idempotency_key = some key) (hkeyne : key ≠ "")
    (hfind : db.find? (fun r => r.idempotency_key == some key) = some existing) :
    (paramsMatch existing body = true →
      createGeneration db body sessionId genId now =
        (CreateResult.okResp existing.id existing.status, db)) ∧
    (paramsMatch existing body = false →
      createGeneration db body sessionId genId now =
        (CreateResult.conflict "Idempotency key already used with different parameters.", db)) := by
  unfold createGeneration
  rw [if_neg (by omega), if_neg hval2, hkey]
  constructor <;> intro hp
  · simp [hkeyne, hfind, hp]
  · simp [hkeyne, hfind, hp]

/-- C7 witness: the two arms evaluated concretely — resubmitting `bodyA`
returns the stored id unchanged; resubmitting with a different product type
conflicts without inserting. -/
theorem c7_witness :
    bodyA.garment_images.length ≤ 5 ∧ bodyA.garment_images.length ≠ 0 ∧
    bodyA.idempotency_key = some "key-1" ∧ "key-1" ≠ "" ∧
    dbAfterA.find? (fun r => r.idempotency_key == some "key-1") = some rowA ∧
    paramsMatch rowA bodyA = true ∧
    createGeneration dbAfterA bodyA "sess" "gen_9" 5 =
      (CreateResult.okResp "gen_1" "queued", dbAfterA) ∧
    paramsMatch rowA bodyC = false ∧
    createGeneration dbAfterA bodyC "sess" "gen_9" 5 =
      (CreateResult.conflict "Idempotency key already used with different parameters.", dbAfterA) :=
  ⟨by decide, by decide, rfl, by decide, by decide, by decide,
   (c7_idempotency dbAfterA bodyA "sess" "gen_9" 5 "key-1" rowA
      (by decide) (by decide) rfl (by decide) (by decide)).1 (by decide),
   by decide,
   (c7_idempotency dbAfterA bodyC "sess" "gen_9" 5 "key-1" rowA
      (by decide) (by decide) rfl (by decide) (by decide)).2 (by decide)⟩

/-! ## C8 -/

set_option maxRecDepth 40000 in
/-- C8 counterexample: an unknown ethnicity preset key is NOT included
verbatim in the prompt.  `assemble_prompt` falls back to the empty
description for ethnicity (and for hair style, hair color and product
type), omitting the fragment entirely, so the raw key `martian` appears
nowhere in the output. -/
theorem c8_counterexample :
    cexMp.ethnicity = some "martian" ∧
    List.lookup "martian" tinyTemplate.ethnicities = none ∧
    hasSub (assemblePrompt tinyTemplate cexMp cexSp).data "martian".data = false :=
  ⟨rfl, by decide, by decide⟩

set_option maxRecDepth 40000 in
/-- C8 (amended): `assemble_prompt` never raises on an unmapped preset key,
but the degradation differs by key: an unmapped environment, pose or
framing key behaves exactly as if the template mapped it to its own raw
text (so the raw key appears verbatim); an unmapped product type behaves as
if mapped to the fixed generic garment description; an unmapped ethnicity,
hair style or hair color behaves as if mapped to the empty string (the
fragment is omitted).  The last conjunct shows an unmapped environment key
appearing verbatim in a concrete prompt. -/
theorem c8_unknown_presets :
    (∀ (t : Template) (mp : MParams) (sp : SParams) (k : String),
      sp.environment = some k → List.lookup k t.environments = none →
      assemblePrompt { t with environments := (k, k) :: t.environments } mp sp =
        assemblePrompt t mp sp) ∧
    (∀ (t : Template) (mp : MParams) (sp : SParams) (k : String),
      sp.pose_preset = some k → List.lookup k t.poses = none →
      assemblePrompt { t with poses := (k, k) :: t.poses } mp sp =
        assemblePrompt t mp sp) ∧
    (∀ (t : Template) (mp : MParams) (sp : SParams) (k : String),
      sp.framing = some k → List.lookup k t.framing = none →
      assemblePrompt { t with framing := (k, k) :: t.framing } mp sp =
        assemblePrompt t mp sp) ∧
    (∀ (t : Template) (mp : MParams) (sp : SParams) (k : String),
      mp.product_type = some k → List.lookup k t.product_types = none →
      assemblePrompt { t with product_types := (k, genericGarmentText) :: t.product_types } mp sp =
        assemblePrompt t mp sp) ∧
    (∀ (t : Template) (mp : MParams) (sp : SParams) (k : String),
      mp.ethnicity = some k → List.lookup k t.ethnicities = none →
      assemblePrompt { t with ethnicities := (k, "") :: t.ethnicities } mp sp =
        assemblePrompt t mp sp) ∧
    (∀ (t : Template) (mp : MParams) (sp : SParams) (k : String),
      mp.hair_style = some k → List.lookup k t.hair_styles = none →
      assemblePrompt { t with hair_styles := (k, "") :: t.hair_styles } mp sp =
        assemblePrompt t mp sp) ∧
    (∀ (t : Template) (mp : MParams) (sp : SParams) (k : String),
      mp.hair_color = some k → List.lookup k t.hair_colors = none →
      assemblePrompt { t with hair_colors := (k, "") :: t.hair_colors } mp sp =
        assemblePrompt t mp sp) ∧
    hasSub (assemblePrompt tinyTemplate cexMpNone cexSpEnv).data "marsbase".data = true := by
  refine ⟨?_, ?_, ?_, ?_, ?_, ?_, ?_, by decide⟩ <;>
    (intro t mp sp k h1 h2; simp [assemblePrompt, tdGet, h1, h2, List.lookup])

/-- C8 witness: each degradation arm evaluated at the concrete template with
the unmapped key `zz`. -/
theorem c8_witness :
    List.lookup "zz" tinyTemplate.environments = none ∧
    (assemblePrompt { tinyTemplate with environments := ("zz", "zz") :: tinyTemplate.environments }
        cexMpNone ⟨some "zz", none, none⟩ =
      assemblePrompt tinyTemplate cexMpNone ⟨some "zz", none, none⟩) ∧
    (assemblePrompt { tinyTemplate with poses := ("zz", "zz") :: tinyTemplate.poses }
        cexMpNone ⟨none, some "zz", none⟩ =
      assemblePrompt tinyTemplate cexMpNone ⟨none, some "zz", none⟩) ∧
    (assemblePrompt { tinyTemplate with framing := ("zz", "zz") :: tinyTemplate.framing }
        cexMpNone ⟨none, none, some "zz"⟩ =
      assemblePrompt tinyTemplate cexMpNone ⟨none, none, some "zz"⟩) ∧
    (assemblePrompt
        { tinyTemplate with product_types := ("zz", genericGarmentText) :: tinyTemplate.product_types }
        ⟨some "zz", none, none, none, none, none, none, none, none, none, none⟩ cexSp =
      assemblePrompt tinyTemplate
        ⟨some "zz", none, none, none, none, none, none, none, none, none, none⟩ cexSp) ∧
    (assemblePrompt { tinyTemplate with ethnicities := ("zz", "") :: tinyTemplate.ethnicities }
        ⟨none, none, none, none, none, none, none, some "zz", none, none, none⟩ cexSp =
      assemblePrompt tinyTemplate
        ⟨none, none, none, none, none, none, none, some "zz", none, none, none⟩ cexSp) ∧
    (assemblePrompt { tinyTemplate with hair_styles := ("zz", "") :: tinyTemplate.hair_styles }
        ⟨none, none, none, none, none, none, none, none, some "zz", none, none⟩ cexSp =
      assemblePrompt tinyTemplate
        ⟨none, none, none, none, none, none, none, none, some "zz", none, none⟩ cexSp) ∧
    (assemblePrompt { tinyTemplate with hair_colors := ("zz", "") :: tinyTemplate.hair_colors }
        ⟨none, none, none, none, none, none, none, none, none, some "zz", none⟩ cexSp =
      assemblePrompt tinyTemplate
        ⟨none, none, none, none, none, none, none, none, none, some "zz", none⟩ cexSp) :=
  ⟨by decide,
   c8_unknown_presets.1 tinyTemplate cexMpNone ⟨some "zz", none, none⟩ "zz" rfl (by decide),
   c8_unknown_presets.2.1 tinyTemplate cexMpNone ⟨none, some "zz", none⟩ "zz" rfl (by decide),
   c8_unknown_presets.2.2.1 tinyTemplate cexMpNone ⟨none, none, some "zz"⟩ "zz" rfl (by decide),
   c8_unknown_presets.2.2.2.1 tinyTemplate
     ⟨some "zz", none, none, none, none, none, none, none, none, none, none⟩ cexSp "zz" rfl (by decide),
   c8_unknown_presets.2.2.2.2.1 tinyTemplate
     ⟨none, none, none, none, none, none, none, some "zz", none, none, none⟩ cexSp "zz" rfl (by decide),
   c8_unknown_presets.2.2.2.2.2.1 tinyTemplate
     ⟨none, none, none, none, none, none, none, none, some "zz", none, none⟩ cexSp "zz" rfl (by decide),
   c8_unknown_presets.2.2.2.2.2.2.1 tinyTemplate
     ⟨none, none, none, none, none, none, none, none, none, some "zz", none⟩ cexSp "zz" rfl (by decide)⟩

/-! ## Lemmas about the worker job -/

/-- Writing back a row keeps it the one found by id. -/
theorem find?_replaceReq (l : List GenReq) (i : String) (g g' : GenReq)
    (h : l.find? (fun r => r.id == i) = some g) (hid : g'.id = g.id) :
    (replaceReq l g').find? (fun r => r.id == i) = some g' := by
  have hgi : g.id = i := by
    have := List.find?_some h
    simpa using this
  induction l with
  | nil => simp at h
  | cons a t ih =>
    by_cases ha : a.id = i
    · rw [List.find?_cons_of_pos _ (by simpa using ha)] at h
      injection h with h
      subst h
      have : a.id = g'.id := by rw [hid]
      simp only [replaceReq, List.map_cons, if_pos this]
      exact List.find?_cons_of_pos _ (by simp [hid, hgi])
    · rw [List.find?_cons_of_neg _ (by simpa using ha)] at h
      have hne : ¬a.id = g'.id := by rw [hid, hgi]; exact ha
      simp only [replaceReq, List.map_cons, if_neg hne]
      rw [List.find?_cons_of_neg _ (by simpa using ha)]
      exact ih h

/-- Writing back twice at the same id is the same as writing back once. -/
theorem replaceReq_replaceReq (l : List GenReq) (g g' : GenReq) (hid : g'.id = g.id) :
    replaceReq (replaceReq l g) g' = replaceReq l g' := by
  simp only [replaceReq, List.map_map]
  apply List.map_congr_left
  intro r _
  by_cases hr : r.id = g.id
  · simp [Function.comp, hr, hid]
  · simp [Function.comp, hr]

/-- A successful garment-load loop loaded every reference. -/
theorem loadGarments_ok_all (f : String → LoadRes) :
    ∀ {us : List String} {bs : List Bytes}, loadGarments f us = Except.ok bs →
      ∀ u ∈ us, loadOkB (f u) = true := by
  intro us
  induction us with
  | nil => intro bs _ u hu; simp at hu
  | cons v vs ih =>
    intro bs h u hu
    rcases hv : f v with b | _ | m <;> rw [loadGarments, hv] at h
    · rcases hrec : loadGarments f vs with e | bs' <;> rw [hrec] at h
      · cases h
      · rcases List.mem_cons.mp hu with huv | huv
        · rw [huv, hv]; rfl
        · exact ih hrec u huv
    · cases h
    · cases h

/-- A successful garment-load loop returns one byte string per reference. -/
theorem loadGarments_ok_len (f : String → LoadRes) :
    ∀ {us : List String} {bs : List Bytes}, loadGarments f us = Except.ok bs →
      bs.length = us.length := by
  intro us
  induction us with
  | nil => intro bs h; cases h; rfl
  | cons v vs ih =>
    intro bs h
    rcases hv : f v with b | _ | m <;> rw [loadGarments, hv] at h
    · rcases hrec : loadGarments f vs with e | bs' <;> rw [hrec] at h
      · cases h
      · cases h; simp [ih hrec]
    · cases h
    · cases h

/-- A `FileNotFoundError` from the load loop names a listed reference. -/
theorem loadGarments_inl (f : String → LoadRes) :
    ∀ {us : List String} {url : String}, loadGarments f us = Except.error (Sum.inl url) →
      url ∈ us ∧ f url = LoadRes.notFound := by
  intro us
  induction us with
  | nil => intro url h; cases h
  | cons v vs ih =>
    intro url h
    rcases hv : f v with b | _ | m <;> rw [loadGarments, hv] at h
    · rcases hrec : loadGarments f vs with e | bs' <;> rw [hrec] at h
      · injection h with h
        subst h
        obtain ⟨hm, hf⟩ := ih hrec
        exact ⟨List.mem_cons_of_mem v hm, hf⟩
      · cases h
    · injection h with h
      injection h with h
      subst h
      exact ⟨List.mem_cons_self v vs, hv⟩
    · injection h with h
      cases h

/-- Any other exception from the load loop comes from a listed reference. -/
theorem loadGarments_inr (f : String → LoadRes) :
    ∀ {us : List String} {m : String}, loadGarments f us = Except.error (Sum.inr m) →
      ∃ u ∈ us, f u = LoadRes.exc m := by
  intro us
  induction us with
  | nil => intro m h; cases h
  | cons v vs ih =>
    intro m h
    rcases hv : f v with b | _ | m' <;> rw [loadGarments, hv] at h
    · rcases hrec : loadGarments f vs with e | bs' <;> rw [hrec] at h
      · injection h with h
        subst h
        obtain ⟨u, hm, hf⟩ := ih hrec
        exact ⟨u, List.mem_cons_of_mem v hm, hf⟩
      · cases h
    · injection h with h
      cases h
    · injection h with h
      injection h with h
      subst h
      exact ⟨v, List.mem_cons_self v vs, hv⟩

/-- A successful save loop saved every path with no exception. -/
theorem saveAll_ok (save : String → Option String) (reqId : String) :
    ∀ {bs : List Bytes} {i : Nat} {ps : List String},
      saveAll save reqId bs i = Except.ok ps →
      ∀ j, j < bs.length → save (outputPath reqId (i + j)) = none := by
  intro bs
  induction bs with
  | nil => intro i ps _ j hj; simp at hj
  | cons b bt ih =>
    intro i ps h j hj
    rcases hs : save (outputPath reqId i) with _ | m <;> rw [saveAll, hs] at h
    · rcases hrec : saveAll save reqId bt (i + 1) with e | ps' <;> rw [hrec] at h
      · cases h
      · cases j with
        | zero => simpa using hs
        | succ k =>
          have := ih hrec k (by simpa using hj)
          simpa [Nat.add_assoc, Nat.add_comm 1 k] using this
    · cases h

/-- A failed save loop has a failing path among the first `bs.length`. -/
theorem saveAll_error (save : String → Option String) (reqId : String) :
    ∀ {bs : List Bytes} {i : Nat} {m : String} {saved : List String},
      saveAll save reqId bs i = Except.error (m, saved) →
      ∃ j, j < bs.length ∧ save (outputPath reqId (i + j)) = some m := by
  intro bs
  induction bs with
  | nil => intro i m saved h; cases h
  | cons b bt ih =>
    intro i m saved h
    rcases hs : save (outputPath reqId i) with _ | m' <;> rw [saveAll, hs] at h
    · rcases hrec : saveAll save reqId bt (i + 1) with ⟨m'', saved''⟩ | ps' <;>
        rw [hrec] at h
      · injection h with h
        have hm'' : m'' = m := congrArg Prod.fst h
        subst hm''
        obtain ⟨j, hj, hsj⟩ := ih hrec
        exact ⟨j + 1, by simpa using Nat.succ_lt_succ hj,
          by simpa [Nat.add_assoc, Nat.add_comm 1 j] using hsj⟩
      · cases h
    · injection h with h
      have hm' : m' = m := congrArg Prod.fst h
      subst hm'
      exact ⟨0, by simp, by simpa using hs⟩

/-- `stepsAllSucceed` unpacked into its per-step propositions. -/
theorem stepsAllSucceed_eq_true (env : Env) (gen : GenReq) (reqId : String) :
    stepsAllSucceed env gen reqId = true ↔
      ((∀ u ∈ gen.garment_image_urls, loadOkB (env.storageLoad u) = true) ∧
       gen.garment_image_urls ≠ [] ∧
       promptOkB env.promptOutcome = true ∧
       (∀ u, gen.model_photo_url = some u → u ≠ "" → loadExcB (env.storageLoad u) = false) ∧
       ∃ r, env.geminiOutcome = GeminiOutcome.ok r ∧
         ∀ i, i < r.images.length → env.saveOutcome (outputPath reqId i) = none) := by
  unfold stepsAllSucceed
  constructor
  · intro h
    simp only [Bool.and_eq_true] at h
    obtain ⟨⟨⟨⟨hall, hne⟩, hp⟩, hphoto⟩, hgem⟩ := h
    refine ⟨fun u hu => List.all_eq_true.mp hall u hu, ?_, hp, ?_, ?_⟩
    · intro hnil
      rw [hnil] at hne
      simp at hne
    · intro u hu hne'
      simp only [hu, if_pos hne'] at hphoto
      simpa using hphoto
    · rcases hg : env.geminiOutcome with r | m | m <;> simp only [hg] at hgem
      · refine ⟨r, rfl, fun i hi => ?_⟩
        have := List.all_eq_true.mp hgem i (List.mem_range.mpr hi)
        simpa using this
      · simp at hgem
      · simp at hgem
  · rintro ⟨hall, hne, hp, hphoto, r, hg, hsave⟩
    simp only [Bool.and_eq_true]
    refine ⟨⟨⟨⟨List.all_eq_true.mpr hall, ?_⟩, hp⟩, ?_⟩, ?_⟩
    · rcases hu : gen.garment_image_urls with _ | ⟨a, t⟩
      · exact absurd hu hne
      · rfl
    · rcases hum : gen.model_photo_url with _ | u
      · rfl
      · show (if u ≠ "" then !loadExcB (env.storageLoad u) else true) = true
        by_cases hu : u ≠ ""
        · rw [if_pos hu]
          simpa using hphoto u hum hu
        · rw [if_neg hu]
    · simp only [hg]
      exact List.all_eq_true.mpr fun i hi => by simpa using hsave i (List.mem_range.mp hi)

/-- A photo-load exception pins a truthy photo URL whose load raised. -/
theorem photoExcOf_some {env : Env} {gen1 : GenReq} {m : String}
    (h : photoExcOf env gen1 = some m) :
    ∃ u, gen1.model_photo_url = some u ∧ u ≠ "" ∧ env.storageLoad u = LoadRes.exc m := by
  unfold photoExcOf at h
  rcases hum : gen1.model_photo_url with _ | u <;> simp only [hum] at h
  · cases h
  · by_cases hu : u ≠ ""
    · rw [if_pos hu] at h
      rcases hsl : env.storageLoad u with b | _ | m' <;> simp only [hsl] at h
      · cases h
      · cases h
      · injection h with h
        subst h
        exact ⟨u, rfl, hu, hsl⟩
    · rw [if_neg hu] at h
      cases h

/-- No photo-load exception means any truthy photo URL loads or is absent. -/
theorem photoExcOf_none {env : Env} {gen1 : GenReq}
    (h : photoExcOf env gen1 = none) :
    ∀ u, gen1.model_photo_url = some u → u ≠ "" → loadExcB (env.storageLoad u) = false := by
  intro u hum hu
  unfold photoExcOf at h
  simp only [hum, if_pos hu] at h
  rcases hsl : env.storageLoad u with b | _ | m'
  · rfl
  · rfl
  · simp only [hsl] at h
    cases h

/-- The dichotomy of a job body run: either every step succeeds and the run
ends with the atomic success commit, or some step fails and the run ends
with a `_fail_generation` commit. -/
theorem runBody_spec (env : Env) (db1 : Db) (gen1 : GenReq) (reqId : String) :
    (∃ r paths, stepsAllSucceed env gen1 reqId = true ∧
        env.geminiOutcome = GeminiOutcome.ok r ∧
        runBody env db1 gen1 reqId = successResult env db1 gen1 reqId r paths) ∨
    (stepsAllSucceed env gen1 reqId = false ∧
      ∃ msg gem saved, runBody env db1 gen1 reqId = failResult env db1 gen1 msg gem saved) := by
  rcases hload : loadGarments env.storageLoad gen1.garment_image_urls with (url | m) | imgs
  · right
    obtain ⟨hmem, hnf⟩ := loadGarments_inl env.storageLoad hload
    refine ⟨?_, "Garment image not found: " ++ url, false, [], by unfold runBody; simp [hload]⟩
    cases hS : stepsAllSucceed env gen1 reqId
    · rfl
    · exfalso
      obtain ⟨hall, -, -, -, -⟩ := (stepsAllSucceed_eq_true env gen1 reqId).mp hS
      have hbad := hall url hmem
      rw [hnf] at hbad
      simp [loadOkB] at hbad
  · right
    obtain ⟨u, hm, hexc⟩ := loadGarments_inr env.storageLoad hload
    refine ⟨?_, "Unhandled error: " ++ m, false, [], by unfold runBody; simp [hload]⟩
    cases hS : stepsAllSucceed env gen1 reqId
    · rfl
    · exfalso
      obtain ⟨hall, -, -, -, -⟩ := (stepsAllSucceed_eq_true env gen1 reqId).mp hS
      have hbad := hall u hm
      rw [hexc] at hbad
      simp [loadOkB] at hbad
  · rcases imgs with _ | ⟨b0, rest⟩
    · right
      have hurls : gen1.garment_image_urls = [] := by
        have hlen := loadGarments_ok_len env.storageLoad hload
        exact List.length_eq_zero.mp hlen.symm
      refine ⟨?_, "No garment images could be loaded.", false, [],
        by unfold runBody; simp [hload]⟩
      cases hS : stepsAllSucceed env gen1 reqId
      · rfl
      · exfalso
        obtain ⟨-, hne, -, -, -⟩ := (stepsAllSucceed_eq_true env gen1 reqId).mp hS
        exact hne hurls
    · rcases hpr : env.promptOutcome with m | ptext
      · right
        refine ⟨?_, "Prompt assembly failed: " ++ m, false, [],
          by unfold runBody; simp [hload, hpr]⟩
        cases hS : stepsAllSucceed env gen1 reqId
        · rfl
        · exfalso
          obtain ⟨-, -, hp, -, -⟩ := (stepsAllSucceed_eq_true env gen1 reqId).mp hS
          rw [hpr] at hp
          simp [promptOkB] at hp
      · rcases hpe : photoExcOf env gen1 with _ | m
        · rcases hg : env.geminiOutcome with r | m | m
          · rcases hsv : saveAll env.saveOutcome reqId r.images 0 with ⟨m, saved⟩ | paths
            · right
              refine ⟨?_, "Unhandled error: " ++ m, true, saved,
                by unfold runBody; simp [hload, hpr, hpe, hg, hsv]⟩
              obtain ⟨j, hj, hsj⟩ := saveAll_error env.saveOutcome reqId hsv
              cases hS : stepsAllSucceed env gen1 reqId
              · rfl
              · exfalso
                obtain ⟨-, -, -, -, r', hg', hsave⟩ :=
                  (stepsAllSucceed_eq_true env gen1 reqId).mp hS
                rw [hg] at hg'
                injection hg' with hg'
                subst hg'
                have hnone := hsave j hj
                rw [Nat.zero_add] at hsj
                rw [hnone] at hsj
                cases hsj
            · left
              refine ⟨r, paths, ?_, rfl, by unfold runBody; simp [hload, hpr, hpe, hg, hsv]⟩
              apply (stepsAllSucceed_eq_true env gen1 reqId).mpr
              refine ⟨loadGarments_ok_all env.storageLoad hload, ?_, ?_,
                photoExcOf_none hpe, r, hg, ?_⟩
              · intro hnil
                have hlen := loadGarments_ok_len env.storageLoad hload
                rw [hnil] at hlen
                simp at hlen
              · rw [hpr]; rfl
              · intro i hi
                have := saveAll_ok env.saveOutcome reqId hsv i hi
                simpa using this
          · right
            refine ⟨?_, "Gemini API error: " ++ m, true, [],
              by unfold runBody; simp [hload, hpr, hpe, hg]⟩
            cases hS : stepsAllSucceed env gen1 reqId
            · rfl
            · exfalso
              obtain ⟨-, -, -, -, r', hg', -⟩ := (stepsAllSucceed_eq_true env gen1 reqId).mp hS
              rw [hg] at hg'
              cases hg'
          · right
            refine ⟨?_, "Unexpected error during generation: " ++ m, true, [],
              by unfold runBody; simp [hload, hpr, hpe, hg]⟩
            cases hS : stepsAllSucceed env gen1 reqId
            · rfl
            · exfalso
              obtain ⟨-, -, -, -, r', hg', -⟩ := (stepsAllSucceed_eq_true env gen1 reqId).mp hS
              rw [hg] at hg'
              cases hg'
        · right
          refine ⟨?_, "Unhandled error: " ++ m, false, [],
            by unfold runBody; simp [hload, hpr, hpe]⟩
          obtain ⟨u, hum, hu, hexc⟩ := photoExcOf_some hpe
          cases hS : stepsAllSucceed env gen1 reqId
          · rfl
          · exfalso
            obtain ⟨-, -, -, hphoto, -⟩ := (stepsAllSucceed_eq_true env gen1 reqId).mp hS
            have hbad := hphoto u hum hu
            rw [hexc] at hbad
            simp [loadExcB] at hbad

/-- The output rows of a three-image batch carry variation indices 0, 1, 2
in order, all owned by the request. -/
theorem buildOutputs_three (env : Env) (reqId : String) (a b c : Bytes) :
    ((buildOutputs env reqId [a, b, c]).filter
        (fun o => o.generation_request_id == reqId)).map (fun o => o.variation_index) =
      [0, 1, 2] := by
  simp [buildOutputs, List.enum, List.enumFrom, List.filter]

/-! ## C1 -/

/-- C1: once `generate_images` has loaded an existing request and passed the
duplicate-dispatch guard, the job always ends with a terminal state on the
row: `succeeded`, or `failed` with an error message recorded — and whenever
any step raises (a garment image fails to load, prompt assembly fails, the
model-photo load raises, the API call raises, or an output upload raises),
the row ends `failed` with a message.  The embedding of the job as a total
function is itself the `try/except` boundary: no exception propagates. -/
theorem c1_failure_terminal (env : Env) (db0 : Db) (reqId : String) (gen : GenReq)
    (hfind : db0.reqs.find? (fun r => r.id == reqId) = some gen)
    (hguard : freshRunning env.now gen = false) :
    ∃ g', (generateImages env db0 reqId).final.reqs.find? (fun r => r.id == reqId) = some g' ∧
      (g'.status = "succeeded" ∨ (g'.status = "failed" ∧ g'.error_message.isSome = true)) ∧
      (stepsAllSucceed env gen reqId = false →
        g'.status = "failed" ∧ g'.error_message.isSome = true) := by
  have hrun : generateImages env db0 reqId =
      runBody env (updateReq db0 { gen with status := "running", updated_at := some env.now })
        { gen with status := "running", updated_at := some env.now } reqId := by
    unfold generateImages
    rw [hfind]
    simp [hguard]
  have hfind1 : (updateReq db0 { gen with status := "running", updated_at := some env.now }).reqs.find?
      (fun r => r.id == reqId) = some { gen with status := "running", updated_at := some env.now } :=
    find?_replaceReq db0.reqs reqId gen _ hfind rfl
  rw [hrun]
  rcases runBody_spec env (updateReq db0 { gen with status := "running", updated_at := some env.now })
      { gen with status := "running", updated_at := some env.now } reqId with
    ⟨r, paths, hS, hg, heq⟩ | ⟨hS, msg, gem, saved, heq⟩
  · rw [heq]
    refine ⟨{ gen with status := "succeeded", updated_at := some env.now }, ?_, Or.inl rfl, ?_⟩
    · exact find?_replaceReq _ reqId { gen with status := "running", updated_at := some env.now } _
        hfind1 rfl
    · intro hfalse
      have htrue : stepsAllSucceed env gen reqId = true := hS
      rw [hfalse] at htrue
      cases htrue
  · rw [heq]
    refine ⟨{ gen with status := "failed", error_message := some msg, updated_at := some env.now },
      ?_, Or.inr ⟨rfl, rfl⟩, fun _ => ⟨rfl, rfl⟩⟩
    exact find?_replaceReq _ reqId { gen with status := "running", updated_at := some env.now } _
      hfind1 rfl

/-- C1 witness: a run whose API call raises ends `failed` with a message. -/
theorem c1_witness :
    (Db.mk [reqW] [] []).reqs.find? (fun r => r.id == "gen_1") = some reqW ∧
    freshRunning envFail.now reqW = false ∧
    stepsAllSucceed envFail reqW "gen_1" = false ∧
    ∃ g', (generateImages envFail ⟨[reqW], [], []⟩ "gen_1").final.reqs.find?
        (fun r => r.id == "gen_1") = some g' ∧
      (g'.status = "succeeded" ∨ (g'.status = "failed" ∧ g'.error_message.isSome = true)) ∧
      (stepsAllSucceed envFail reqW "gen_1" = false →
        g'.status = "failed" ∧ g'.error_message.isSome = true) :=
  ⟨by decide, by decide, by decide,
   c1_failure_terminal envFail ⟨[reqW], [], []⟩ "gen_1" reqW (by decide) (by decide)⟩

/-! ## C2 -/

/-- C2: a dispatch on a request already `running` is a no-op (no commit, no
API call, no file write, database unchanged) when `updated_at` is within
the 5-minute staleness threshold of now; when the difference has reached
the threshold (or `updated_at` is NULL), the job restarts from the
beginning: it behaves exactly as a fresh dispatch — it re-marks the row
`running` and proceeds through all steps. -/
theorem c2_stale_guard (env : Env) (db0 : Db) (reqId : String) (gen : GenReq)
    (hfind : db0.reqs.find? (fun r => r.id == reqId) = some gen)
    (hrun : gen.status = "running") :
    (∀ t, gen.updated_at = some t → env.now - t < staleThresholdSecs →
      generateImages env db0 reqId = ⟨db0, [], false, []⟩) ∧
    ((match gen.updated_at with
      | some t => staleThresholdSecs ≤ env.now - t
      | none => True) →
      generateImages env db0 reqId =
        runBody env (updateReq db0 { gen with status := "running", updated_at := some env.now })
          { gen with status := "running", updated_at := some env.now } reqId ∧
      generateImages env db0 reqId =
        generateImages env (updateReq db0 { gen with status := "queued" }) reqId) := by
  constructor
  · intro t ht hlt
    have hfresh : freshRunning env.now gen = true := by
      unfold freshRunning
      simp [hrun, ht, hlt]
    unfold generateImages
    rw [hfind]
    simp [hfresh]
  · intro hstale
    have hguard : freshRunning env.now gen = false := by
      unfold freshRunning
      rcases hup : gen.updated_at with _ | t
      · simp
      · rw [hup] at hstale
        simp [Nat.not_lt.mpr hstale]
    have hLHS : generateImages env db0 reqId =
        runBody env (updateReq db0 { gen with status := "running", updated_at := some env.now })
          { gen with status := "running", updated_at := some env.now } reqId := by
      unfold generateImages
      rw [hfind]
      simp [hguard]
    refine ⟨hLHS, ?_⟩
    have hfindQ : (updateReq db0 { gen with status := "queued" }).reqs.find?
        (fun r => r.id == reqId) = some { gen with status := "queued" } :=
      find?_replaceReq db0.reqs reqId gen _ hfind rfl
    have hguardQ : freshRunning env.now ({ gen with status := "queued" } : GenReq) = false := by
      unfold freshRunning
      simp
    have hRHS : generateImages env (updateReq db0 { gen with status := "queued" }) reqId =
        runBody env (updateReq (updateReq db0 { gen with status := "queued" })
            { gen with status := "running", updated_at := some env.now })
          { gen with status := "running", updated_at := some env.now } reqId := by
      unfold generateImages
      rw [hfindQ]
      simp [hguardQ]
    have hupd : updateReq (updateReq db0 { gen with status := "queued" })
        { gen with status := "running", updated_at := some env.now } =
        updateReq db0 { gen with status := "running", updated_at := some env.now } := by
      show Db.mk (replaceReq (replaceReq db0.reqs { gen with status := "queued" })
          { gen with status := "running", updated_at := some env.now }) db0.outputs db0.usages =
        Db.mk (replaceReq db0.reqs { gen with status := "running", updated_at := some env.now })
          db0.outputs db0.usages
      rw [replaceReq_replaceReq db0.reqs { gen with status := "queued" }
        { gen with status := "running", updated_at := some env.now } rfl]
    rw [hLHS, hRHS, hupd]

/-- C2 witness: a recent `running` dispatch is a no-op; a stale one runs
exactly like a fresh dispatch of the queued request. -/
theorem c2_witness :
    (Db.mk [reqRunningFresh] [] []).reqs.find? (fun r => r.id == "gen_1") = some reqRunningFresh ∧
    reqRunningFresh.status = "running" ∧
    reqRunningFresh.updated_at = some 900 ∧
    envW.now - 900 < staleThresholdSecs ∧
    generateImages envW ⟨[reqRunningFresh], [], []⟩ "gen_1" =
      ⟨⟨[reqRunningFresh], [], []⟩, [], false, []⟩ ∧
    (Db.mk [reqRunningStale] [] []).reqs.find? (fun r => r.id == "gen_1") = some reqRunningStale ∧
    reqRunningStale.status = "running" ∧
    staleThresholdSecs ≤ envW.now - 100 ∧
    generateImages envW ⟨[reqRunningStale], [], []⟩ "gen_1" =
      generateImages envW
        (updateReq ⟨[reqRunningStale], [], []⟩ { reqRunningStale with status := "queued" })
        "gen_1" :=
  ⟨by decide, rfl, rfl, by decide,
   (c2_stale_guard envW ⟨[reqRunningFresh], [], []⟩ "gen_1" reqRunningFresh (by decide) rfl).1
     900 rfl (by decide),
   by decide, rfl, by decide,
   ((c2_stale_guard envW ⟨[reqRunningStale], [], []⟩ "gen_1" reqRunningStale (by decide) rfl).2
     (show staleThresholdSecs ≤ envW.now - 100 from by decide)).2⟩

/-! ## C3 -/

/-- C3: whatever the request's `output_count` (the theorem holds for every
value of `gen.output_count`, which the job never reads), a request the job
drives to `succeeded` from a state with no pre-existing output or usage
rows ends with exactly 3 output rows at variation indices 0, 1, 2 (unique,
dense, ascending) and exactly one usage row, and these rows appear only in
the same commit snapshot as the `succeeded` status — no commit shows output
rows for the request without `succeeded`.  The count 3 comes from the
generation client, whose successful results always carry three images. -/
theorem c3_success_rows (env : Env) (db0 : Db) (reqId : String) (gen : GenReq) (r : GeminiResult)
    (hfind : db0.reqs.find? (fun x => x.id == reqId) = some gen)
    (hout0 : db0.outputs.filter (fun o => o.generation_request_id == reqId) = [])
    (husage0 : db0.usages.filter (fun u => u.generation_request_id == reqId) = [])
    (hgem : env.geminiOutcome = GeminiOutcome.ok r)
    (hclient : ∃ (oracle : NetOracle) (apiKey modelName : String) (mr : Nat),
      (generateGarmentImages oracle apiKey modelName mr).1 = Except.ok r)
    (g' : GenReq)
    (hg' : (generateImages env db0 reqId).final.reqs.find? (fun x => x.id == reqId) = some g')
    (hsucc : g'.status = "succeeded") :
    ((generateImages env db0 reqId).final.outputs.filter
        (fun o => o.generation_request_id == reqId)).map (fun o => o.variation_index) =
      [0, 1, 2] ∧
    ((generateImages env db0 reqId).final.usages.filter
        (fun u => u.generation_request_id == reqId)).length = 1 ∧
    ∀ d ∈ (generateImages env db0 reqId).commits,
      (d.outputs.filter (fun o => o.generation_request_id == reqId) ≠ [] ∨
        d.usages.filter (fun u => u.generation_request_id == reqId) ≠ []) →
      ∃ g'', d.reqs.find? (fun x => x.id == reqId) = some g'' ∧ g''.status = "succeeded" := by
  have hlen3 : r.images.length = 3 := by
    obtain ⟨o, k, mn, mr, hcl⟩ := hclient
    exact generateGarmentImages_ok_length hcl
  obtain ⟨a, b, c, habc⟩ := List.length_eq_three.mp hlen3
  by_cases hguard : freshRunning env.now gen = true
  · have hskip : generateImages env db0 reqId = ⟨db0, [], false, []⟩ := by
      unfold generateImages
      rw [hfind]
      simp [hguard]
    rw [hskip] at hg'
    rw [hfind] at hg'
    injection hg' with hg'
    have hrunning : gen.status = "running" := by
      unfold freshRunning at hguard
      simp only [Bool.and_eq_true] at hguard
      simpa using hguard.1
    rw [← hg', hrunning] at hsucc
    exact absurd hsucc (by decide)
  · have hguard' : freshRunning env.now gen = false := by
      cases hf : freshRunning env.now gen
      · rfl
      · exact absurd hf hguard
    have hrun : generateImages env db0 reqId =
        runBody env (updateReq db0 { gen with status := "running", updated_at := some env.now })
          { gen with status := "running", updated_at := some env.now } reqId := by
      unfold generateImages
      rw [hfind]
      simp [hguard']
    have hfind1 : (updateReq db0 { gen with status := "running", updated_at := some env.now }).reqs.find?
        (fun x => x.id == reqId) = some { gen with status := "running", updated_at := some env.now } :=
      find?_replaceReq db0.reqs reqId gen _ hfind rfl
    rcases runBody_spec env (updateReq db0 { gen with status := "running", updated_at := some env.now })
        { gen with status := "running", updated_at := some env.now } reqId with
      ⟨r', paths, hS, hg2, heq⟩ | ⟨hS, msg, gem, saved, heq⟩
    · have hr' : r' = r := by
        rw [hgem] at hg2
        injection hg2 with hg2
        exact hg2.symm
      rw [hr'] at heq
      rw [hrun, heq]
      refine ⟨?_, ?_, ?_⟩
      · show (((successResult env _ _ reqId r paths).final.outputs).filter
            (fun o => o.generation_request_id == reqId)).map (fun o => o.variation_index) = _
        simp only [successResult, updateReq]
        rw [List.filter_append]
        rw [show (db0.outputs.filter fun o => o.generation_request_id == reqId) = [] from hout0]
        rw [List.nil_append, habc, buildOutputs_three]
      · simp only [successResult, updateReq]
        rw [List.filter_append]
        rw [show (db0.usages.filter fun u => u.generation_request_id == reqId) = [] from husage0]
        rw [List.nil_append]
        simp [buildUsage]
      · intro d hd hne
        simp only [successResult] at hd
        rcases List.mem_cons.mp hd with h1 | hd2
        · subst h1
          rcases hne with h | h
          · exact absurd hout0 h
          · exact absurd husage0 h
        · rcases List.mem_cons.mp hd2 with h2 | hd3
          · subst h2
            refine ⟨{ gen with status := "succeeded", updated_at := some env.now }, ?_, rfl⟩
            exact find?_replaceReq _ reqId
              { gen with status := "running", updated_at := some env.now } _ hfind1 rfl
          · simp at hd3
    · rw [hrun, heq] at hg'
      have hfound : (failResult env
          (updateReq db0 { gen with status := "running", updated_at := some env.now })
          { gen with status := "running", updated_at := some env.now } msg gem saved).final.reqs.find?
            (fun x => x.id == reqId) =
          some { gen with status := "failed", error_message := some msg, updated_at := some env.now } :=
        find?_replaceReq _ reqId { gen with status := "running", updated_at := some env.now } _
          hfind1 rfl
      rw [hfound] at hg'
      injection hg' with hg'
      rw [← hg'] at hsucc
      simp at hsucc

/-- C3 witness: a fully successful concrete run yields output rows 0, 1, 2
and one usage row, with the gemini result coming from the modelled client. -/
theorem c3_witness :
    (Db.mk [reqW] [] []).reqs.find? (fun x => x.id == "gen_1") = some reqW ∧
    envW.geminiOutcome = GeminiOutcome.ok rGood ∧
    (∃ (oracle : NetOracle) (apiKey modelName : String) (mr : Nat),
      (generateGarmentImages oracle apiKey modelName mr).1 = Except.ok rGood) ∧
    (generateImages envW ⟨[reqW], [], []⟩ "gen_1").final.reqs.find? (fun x => x.id == "gen_1") =
      some { reqW with status := "succeeded", updated_at := some envW.now } ∧
    ((generateImages envW ⟨[reqW], [], []⟩ "gen_1").final.outputs.filter
        (fun o => o.generation_request_id == "gen_1")).map (fun o => o.variation_index) =
      [0, 1, 2] ∧
    ((generateImages envW ⟨[reqW], [], []⟩ "gen_1").final.usages.filter
        (fun u => u.generation_request_id == "gen_1")).length = 1 :=
  ⟨by decide, rfl, ⟨oracleGood, "k", "m", 2, rfl⟩, by decide,
   (c3_success_rows envW ⟨[reqW], [], []⟩ "gen_1" reqW rGood (by decide) rfl rfl rfl
      ⟨oracleGood, "k", "m", 2, rfl⟩
      { reqW with status := "succeeded", updated_at := some envW.now } (by decide) rfl).1,
   (c3_success_rows envW ⟨[reqW], [], []⟩ "gen_1" reqW rGood (by decide) rfl rfl rfl
      ⟨oracleGood, "k", "m", 2, rfl⟩
      { reqW with status := "succeeded", updated_at := some envW.now } (by decide) rfl).2.1⟩
